import Mathlib

set_option maxRecDepth 100000

/-
Verification of the satlight visibility decision core
(src/satlight/visibility.py): the window calculator built on linear
interpolation, the per-satellite prediction cache with exponential
backoff, and the round-robin fetch scheduler inside visible_now.

Modelling conventions:
- Python floats are modelled as exact rationals (ℚ); timestamps as ℤ.
- Python dict fields that may be absent or hold arbitrary values are
  modelled by Option and by the PyVal sum type below.
- The mutable module-level cache and round-robin index are threaded
  explicitly as state; random.random() is modelled by an injected
  stream of rationals, consumed exactly where the source draws.
- Fallible Python code (try/except returning None) becomes Option.
-/

namespace Satlight

/-- Python-like scalar values that may appear in a prediction-record
field: int, float, str, None, or any other object (list, dict, ...). -/
inductive PyVal where
  | vint (n : ℤ)
  | vfloat (q : ℚ)
  | vstr (s : String)
  | vnone
  | vother
  deriving DecidableEq

/-- Numeric value of a list of decimal digit characters. -/
def digitsVal (ds : List Char) : ℕ :=
  ds.foldl (fun acc c => 10 * acc + (c.toNat - 48)) 0

/-- Split a character list into its leading run of decimal digits and the rest. -/
def takeDigits (cs : List Char) : List Char × List Char :=
  (cs.takeWhile Char.isDigit, cs.dropWhile Char.isDigit)

/-- Consume an optional leading sign; returns (isNegative, rest). -/
def parseSign (cs : List Char) : Bool × List Char :=
  match cs with
  | '-' :: rest => (true, rest)
  | '+' :: rest => (false, rest)
  | _ => (false, cs)

/-- Model of str.strip(): drop leading and trailing whitespace. -/
def pyStrip (s : String) : List Char :=
  ((s.data.dropWhile Char.isWhitespace).reverse.dropWhile Char.isWhitespace).reverse

/-- Model of Python int(s) on a string: optional sign then a nonempty
run of digits and nothing else; otherwise a ValueError, i.e. none. -/
def parseIntChars (cs : List Char) : Option ℤ :=
  let p := parseSign cs
  let d := takeDigits p.2
  if d.1 = [] ∨ d.2 ≠ [] then none
  else some (if p.1 then -(digitsVal d.1 : ℤ) else (digitsVal d.1 : ℤ))

/-- Optional exponent suffix of a Python float literal applied to a mantissa. -/
def parseExpPart (mant : ℚ) (cs : List Char) : Option ℚ :=
  match cs with
  | [] => some mant
  | c :: cs2 =>
    if c = 'e' ∨ c = 'E' then
      let p := parseSign cs2
      let d := takeDigits p.2
      if d.1 = [] ∨ d.2 ≠ [] then none
      else some (if p.1 then mant / 10 ^ digitsVal d.1 else mant * 10 ^ digitsVal d.1)
    else none

/-- Model of Python float(s) on a stripped string: sign, digits with an
optional fractional part, optional exponent (the special literals
inf and nan are outside the model). -/
def parseFloatChars (cs : List Char) : Option ℚ :=
  let p := parseSign cs
  let ip := takeDigits p.2
  match ip.2 with
  | '.' :: cs3 =>
    let fp := takeDigits cs3
    if ip.1 = [] ∧ fp.1 = [] then none
    else
      (parseExpPart ((digitsVal ip.1 : ℚ) + (digitsVal fp.1 : ℚ) / 10 ^ fp.1.length) fp.2).map
        (fun q => if p.1 then -q else q)
  | _ =>
    if ip.1 = [] then none
    else (parseExpPart (digitsVal ip.1 : ℚ) ip.2).map (fun q => if p.1 then -q else q)

/-- Floor of a rational as an integer, computed by floor division of
numerator by denominator (kernel-evaluable). -/
def ratFloor (q : ℚ) : ℤ := q.num.fdiv q.den

/-- Model of Python int(x) on a float: truncation toward zero,
computed by T-division of numerator by denominator. -/
def truncToInt (q : ℚ) : ℤ := q.num.tdiv q.den

/-- Embedding of _parse_alt (visibility.py lines 49-57): ints and floats
pass through, strings are stripped and parsed as float literals,
everything else (None included) yields none. -/
def parse_alt (v : PyVal) : Option ℚ :=
  match v with
  | .vint n => some (n : ℚ)
  | .vfloat q => some q
  | .vstr s => parseFloatChars (pyStrip s)
  | .vnone => none
  | .vother => none

/-- Embedding of _safe_int (visibility.py lines 69-73): Python int(v),
any exception yielding none. -/
def safe_int (v : PyVal) : Option ℤ :=
  match v with
  | .vint n => some n
  | .vfloat q => some (truncToInt q)
  | .vstr s => parseIntChars (pyStrip s)
  | .vnone => none
  | .vother => none

/-- One of the three points of a prediction record: a dict whose
utc_timestamp and alt keys may be absent (Option none) or hold any value. -/
structure PassPoint where
  utc_timestamp : Option PyVal
  alt : Option PyVal
  deriving DecidableEq

/-- A prediction record: the rise, culmination and set points, each
possibly missing.  A point that is present but not a dict raises
AttributeError in the source, which the enclosing try/except turns into
the same outcome as a missing point, so both collapse to none here. -/
structure PassObj where
  rise : Option PassPoint
  culmination : Option PassPoint
  setp : Option PassPoint
  deriving DecidableEq

/-- dict.get on a pass-point key followed by _safe_int: a missing key
behaves exactly as a Python None value. -/
def safe_int_field (v : Option PyVal) : Option ℤ :=
  match v with
  | some pv => safe_int pv
  | none => none

/-- dict.get on a pass-point key followed by _parse_alt. -/
def parse_alt_field (v : Option PyVal) : Option ℚ :=
  match v with
  | some pv => parse_alt pv
  | none => none

/-- Embedding of _extract_set_ts (visibility.py lines 60-65). -/
def extract_set_ts (p : PassObj) : Option ℤ :=
  match p.setp with
  | none => none
  | some sp => safe_int_field sp.utc_timestamp

/-- Python round() on a rational: nearest integer, ties to even. -/
def pyRound (q : ℚ) : ℤ :=
  let fl := ratFloor q
  let frac := q - fl
  if frac < 1/2 then fl
  else if 1/2 < frac then fl + 1
  else if fl % 2 = 0 then fl else fl + 1

/-- Embedding of _cross_time (visibility.py lines 82-96): timestamp at
which the segment (t1,a1)-(t2,a2) crosses altitude m, none if the
segment is flat below m or the crossing fraction is outside [0,1]. -/
def cross_time (t1 : ℤ) (a1 : ℚ) (t2 : ℤ) (a2 : ℚ) (m : ℚ) : Option ℤ :=
  if a1 = a2 then (if m ≤ a1 then some t1 else none)
  else
    let f : ℚ := (m - a1) / (a2 - a1)
    if f < 0 ∨ 1 < f then none
    else some (pyRound ((t1 : ℚ) + f * ((t2 : ℚ) - (t1 : ℚ))))

/-- Embedding of _compute_threshold_window (visibility.py lines 100-150):
the inclusive window [t_enter, t_exit] of altitude at or above min_elev,
or none.  The nested matches mirror the early returns and the enclosing
try/except that maps any failure to None. -/
def compute_threshold_window (p : PassObj) (min_elev : ℚ) : Option (ℤ × ℤ) :=
  match p.rise, p.culmination, p.setp with
  | some rise, some culm, some setp =>
    match safe_int_field rise.utc_timestamp, safe_int_field culm.utc_timestamp,
        safe_int_field setp.utc_timestamp with
    | some tr, some tc, some ts =>
      match parse_alt_field rise.alt, parse_alt_field culm.alt, parse_alt_field setp.alt with
      | some ar, some ac, some aS =>
        if ac < min_elev then none
        else
          match (if min_elev ≤ ar then some tr else cross_time tr ar tc ac min_elev) with
          | none => none
          | some t_enter =>
            some (t_enter,
              if min_elev ≤ aS then ts
              else
                match cross_time tc ac ts aS min_elev with
                | none => ts
                | some t => t)
      | _, _, _ => none
    | _, _, _ => none
  | _, _, _ => none

/-- Embedding of _is_overhead_now (visibility.py lines 154-165). -/
def is_overhead_now (p : PassObj) (now_utc : ℤ) (min_elev : ℚ) : Bool :=
  match compute_threshold_window p min_elev with
  | none => false
  | some w => decide (w.1 ≤ now_utc ∧ now_utc ≤ w.2)

/-- Well-formed record with integer timestamps and float altitudes. -/
def mkPass (tr : ℤ) (ar : ℚ) (tc : ℤ) (ac : ℚ) (ts : ℤ) (aS : ℚ) : PassObj :=
  ⟨some ⟨some (.vint tr), some (.vfloat ar)⟩,
   some ⟨some (.vint tc), some (.vfloat ac)⟩,
   some ⟨some (.vint ts), some (.vfloat aS)⟩⟩

/-- The record of the spec's worked example: rise 1000 at 10°,
culmination 1100 at 46°, set 1200 at 10°. -/
def rec1 : PassObj := mkPass 1000 10 1100 46 1200 10

/-- Cache entry, embedding _CacheEntry (visibility.py lines 30-35):
pass_obj, set_ts (0 if unknown), retry_after on the monotonic clock,
and the consecutive failure streak. -/
structure CacheEntry where
  pass_obj : Option PassObj
  set_ts : ℤ
  retry_after : ℚ
  fail_streak : ℕ
  deriving DecidableEq

/-- The module-level _CACHE dict, as an association list keyed by
satellite id with at most the first binding per key visible. -/
abbrev Cache := List (ℕ × CacheEntry)

/-- dict.get on the cache. -/
def cacheGet : Cache → ℕ → Option CacheEntry
  | [], _ => none
  | (k, e) :: rest, sat_id => if k = sat_id then some e else cacheGet rest sat_id

/-- dict assignment _CACHE[sat_id] = e: replace the binding or append it. -/
def cacheSet : Cache → ℕ → CacheEntry → Cache
  | [], sat_id, e => [(sat_id, e)]
  | (k, e0) :: rest, sat_id, e =>
    if k = sat_id then (k, e) :: rest else (k, e0) :: cacheSet rest sat_id e

/-- A fetcher collaborator: fetch(sat_id, lat, lon), none on failure. -/
abbrev Fetcher := ℕ → ℚ → ℚ → Option PassObj

/-- Result of one _get_pass_with_cache call, instrumented with the
number of Fetcher invocations (0 or 1) and the remaining stream of
random.random() draws. -/
structure ResolveOut where
  pass_obj : Option PassObj
  cache : Cache
  fetches : ℕ
  rs : List ℚ
  deriving DecidableEq

/-- Embedding of visibility.py lines 191-220: the fetch-and-store part
of _get_pass_with_cache, reached when the cache offers no usable entry.
On failure, one random draw r is consumed for the jitter
delay * 0.1 * (2r - 1); the backoff entry keeps the old pass_obj and
set_ts.  On success, the entry is replaced (set_ts 0 when the set
timestamp does not parse). -/
def resolveFetch (cache : Cache) (entry : Option CacheEntry) (sat_id : ℕ) (lat lon : ℚ)
    (fetcher : Fetcher) (mono : ℚ) (rs : List ℚ) : ResolveOut :=
  match fetcher sat_id lat lon with
  | none =>
    let streak : ℕ := (match entry with | some e => e.fail_streak | none => 0) + 1
    let delay : ℚ := min 3600 (60 * 2 ^ (streak - 1))
    let r : ℚ := rs.headD 0
    let jitter : ℚ := delay * (1/10) * (2 * r - 1)
    let backoff_until : ℚ := mono + max 1 (delay + jitter)
    let base : CacheEntry := match entry with
      | some e => e
      | none => ⟨none, 0, 0, 0⟩
    ⟨none, cacheSet cache sat_id ⟨base.pass_obj, base.set_ts, backoff_until, streak⟩, 1, rs.tail⟩
  | some p =>
    match extract_set_ts p with
    | none => ⟨some p, cacheSet cache sat_id ⟨some p, 0, 0, 0⟩, 1, rs⟩
    | some sts => ⟨some p, cacheSet cache sat_id ⟨some p, sts, 0, 0⟩, 1, rs⟩

/-- Embedding of _get_pass_with_cache (visibility.py lines 169-220):
reuse a cached pass until its set time, skip while in backoff, and
otherwise fetch via resolveFetch. -/
def get_pass_with_cache (cache : Cache) (sat_id : ℕ) (lat lon : ℚ) (now_utc : ℤ)
    (fetcher : Fetcher) (mono : ℚ) (rs : List ℚ) : ResolveOut :=
  match cacheGet cache sat_id with
  | some e =>
    if now_utc ≤ e.set_ts then ⟨e.pass_obj, cache, 0, rs⟩
    else if mono < e.retry_after then ⟨none, cache, 0, rs⟩
    else resolveFetch cache (some e) sat_id lat lon fetcher mono rs
  | none => resolveFetch cache none sat_id lat lon fetcher mono rs

/-- Configuration fields of AppConfig used by the visibility core;
satellites is dict(int -> str) as an ordered list of items. -/
structure AppConfig where
  lat : ℚ
  lon : ℚ
  satellites : List (ℕ × String)
  min_elevation_deg : ℚ
  deriving DecidableEq

/-- The module-level mutable state of visibility.py: _CACHE and _RR_IDX. -/
structure VisState where
  cache : Cache
  rr_idx : ℕ
  deriving DecidableEq

/-- Output of the per-satellite loop of visible_now, instrumented with
the ids for which _get_pass_with_cache was invoked. -/
structure LoopOut where
  results : List (ℕ × String)
  cache : Cache
  budget : ℤ
  rs : List ℚ
  fetched : List ℕ
  deriving DecidableEq

/-- Loop body of visible_now for one satellite (visibility.py lines
256-269): try the cache, skip while in backoff, fetch only while budget
remains.  Yields the pass (if any), the updated cache, the remaining
budget and random stream, and the ids for which a fetch was attempted. -/
def visStep (cfg : AppConfig) (now_utc : ℤ) (fetcher : Fetcher) (mono : ℚ)
    (sat_id : ℕ) (cache : Cache) (budget : ℤ) (rs : List ℚ) :
    Option PassObj × Cache × ℤ × List ℚ × List ℕ :=
  match cacheGet cache sat_id with
  | some e =>
    if now_utc ≤ e.set_ts then (e.pass_obj, cache, budget, rs, [])
    else if mono < e.retry_after then (none, cache, budget, rs, [])
    else if 0 < budget then
      let out := get_pass_with_cache cache sat_id cfg.lat cfg.lon now_utc fetcher mono rs
      (out.pass_obj, out.cache, budget - 1, out.rs, [sat_id])
    else (none, cache, budget, rs, [])
  | none =>
    if mono < 0 then (none, cache, budget, rs, [])
    else if 0 < budget then
      let out := get_pass_with_cache cache sat_id cfg.lat cfg.lon now_utc fetcher mono rs
      (out.pass_obj, out.cache, budget - 1, out.rs, [sat_id])
    else (none, cache, budget, rs, [])

/-- Embedding of the for-loop of visible_now (visibility.py lines
255-274): run visStep per satellite and collect (id, color) whenever
the obtained pass is overhead now. -/
def visLoop (cfg : AppConfig) (now_utc : ℤ) (fetcher : Fetcher) (mono : ℚ) :
    List (ℕ × String) → Cache → ℤ → List ℚ → LoopOut
  | [], cache, budget, rs => ⟨[], cache, budget, rs, []⟩
  | (sat_id, color) :: rest, cache, budget, rs =>
    let s := visStep cfg now_utc fetcher mono sat_id cache budget rs
    let hit : Bool :=
      match s.1 with
      | some p => is_overhead_now p now_utc cfg.min_elevation_deg
      | none => false
    let tail := visLoop cfg now_utc fetcher mono rest s.2.1 s.2.2.1 s.2.2.2.1
    ⟨(if hit then [(sat_id, color)] else []) ++ tail.results, tail.cache, tail.budget,
      tail.rs, s.2.2.2.2 ++ tail.fetched⟩

/-- Rotation of the satellite list for one cycle (visibility.py lines
249-250): sat_items[start:] + sat_items[:start] with start = idx % n. -/
def cycleOrder (sats : List (ℕ × String)) (idx : ℕ) : List (ℕ × String) :=
  sats.drop (idx % sats.length) ++ sats.take (idx % sats.length)

/-- Output of one visible_now cycle: the (id, color) results, the new
module state, the ids fetched, and the remaining random stream. -/
structure CycleOut where
  results : List (ℕ × String)
  state : VisState
  fetched : List ℕ
  rs : List ℚ
  deriving DecidableEq

/-- Embedding of visible_now (visibility.py lines 224-279).  now_utc is
int(now_fn()), mono the (constant, injected) monotonic clock for the
cycle, and rs the stream backing random.random(). -/
def visible_now (cfg : AppConfig) (st : VisState) (now_utc : ℤ) (fetcher : Fetcher)
    (mono : ℚ) (max_fetches_per_tick : Option ℤ) (rs : List ℚ) : CycleOut :=
  let sat_items := cfg.satellites
  let n := sat_items.length
  if n = 0 then ⟨[], st, [], rs⟩
  else
    let ordered := cycleOrder sat_items st.rr_idx
    let fetch_budget : ℤ :=
      match max_fetches_per_tick with
      | some b => b
      | none => (n : ℤ)
    let out := visLoop cfg now_utc fetcher mono ordered st.cache fetch_budget rs
    ⟨out.results, ⟨out.cache, (st.rr_idx + 1) % n⟩, out.fetched, out.rs⟩

/-- Unfolding equation for visible_now. -/
theorem visible_now_def (cfg : AppConfig) (st : VisState) (now_utc : ℤ) (fetcher : Fetcher)
    (mono : ℚ) (max_fetches_per_tick : Option ℤ) (rs : List ℚ) :
    visible_now cfg st now_utc fetcher mono max_fetches_per_tick rs =
      if cfg.satellites.length = 0 then ⟨[], st, [], rs⟩
      else
        ⟨(visLoop cfg now_utc fetcher mono (cycleOrder cfg.satellites st.rr_idx) st.cache
            (match max_fetches_per_tick with
              | some b => b
              | none => (cfg.satellites.length : ℤ)) rs).results,
          ⟨(visLoop cfg now_utc fetcher mono (cycleOrder cfg.satellites st.rr_idx) st.cache
              (match max_fetches_per_tick with
                | some b => b
                | none => (cfg.satellites.length : ℤ)) rs).cache,
            (st.rr_idx + 1) % cfg.satellites.length⟩,
          (visLoop cfg now_utc fetcher mono (cycleOrder cfg.satellites st.rr_idx) st.cache
            (match max_fetches_per_tick with
              | some b => b
              | none => (cfg.satellites.length : ℤ)) rs).fetched,
          (visLoop cfg now_utc fetcher mono (cycleOrder cfg.satellites st.rr_idx) st.cache
            (match max_fetches_per_tick with
              | some b => b
              | none => (cfg.satellites.length : ℤ)) rs).rs⟩ := rfl

/-- Claim C1: for the record rise = (1000, 10), culmination = (1100, 46),
set = (1200, 10) and threshold 28, the window calculator returns the
inclusive window (1050, 1150); the overhead test is true at now = 1050
and now = 1150 and false at now = 1049 and now = 1151. -/
theorem c1_example_window :
    compute_threshold_window rec1 28 = some (1050, 1150) ∧
    is_overhead_now rec1 1050 28 = true ∧
    is_overhead_now rec1 1150 28 = true ∧
    is_overhead_now rec1 1049 28 = false ∧
    is_overhead_now rec1 1151 28 = false := by
  with_unfolding_all decide

/-- Helper for C2: a record whose culmination point carries an altitude
parsing strictly below the threshold yields no window, whatever the
other fields hold. -/
theorem window_none_of_culm_below (r sp : Option PassPoint) (ct ca : Option PyVal)
    (m ac : ℚ) (hac : parse_alt_field ca = some ac) (hlt : ac < m) :
    compute_threshold_window ⟨r, some ⟨ct, ca⟩, sp⟩ m = none := by
  cases r with
  | none => rfl
  | some rp =>
    cases sp with
    | none => simp [compute_threshold_window]
    | some spp =>
      cases h1 : safe_int_field rp.utc_timestamp with
      | none => simp [compute_threshold_window, h1]
      | some tr =>
        cases h2 : safe_int_field ct with
        | none => simp [compute_threshold_window, h1, h2]
        | some tc =>
          cases h3 : safe_int_field spp.utc_timestamp with
          | none => simp [compute_threshold_window, h1, h2, h3]
          | some ts =>
            cases h4 : parse_alt_field rp.alt with
            | none => simp [compute_threshold_window, h1, h2, h3, h4]
            | some ar =>
              cases h5 : parse_alt_field spp.alt with
              | none => simp [compute_threshold_window, h1, h2, h3, h4, h5]
              | some aS =>
                simp [compute_threshold_window, h1, h2, h3, h4, h5, hac, hlt]

/-- Writing an id then reading it back yields the written entry. -/
theorem cacheGet_cacheSet_self : ∀ (c : Cache) (sat_id : ℕ) (e : CacheEntry),
    cacheGet (cacheSet c sat_id e) sat_id = some e
  | [], sat_id, e => by simp [cacheSet, cacheGet]
  | (k, e0) :: rest, sat_id, e => by
    by_cases hk : k = sat_id
    · simp [cacheSet, cacheGet, hk]
    · simp [cacheSet, cacheGet, hk, cacheGet_cacheSet_self rest sat_id e]

/-- Writing one id leaves every other id's entry unchanged. -/
theorem cacheGet_cacheSet_ne : ∀ (c : Cache) (sat_id other : ℕ) (e : CacheEntry),
    other ≠ sat_id → cacheGet (cacheSet c sat_id e) other = cacheGet c other
  | [], sat_id, other, e, h => by
    simp [cacheSet, cacheGet, Ne.symm h]
  | (k, e0) :: rest, sat_id, other, e, h => by
    by_cases hk : k = sat_id
    · subst hk
      simp [cacheSet, cacheGet, Ne.symm h]
    · simp [cacheSet, cacheGet, hk, cacheGet_cacheSet_ne rest sat_id other e h]

/-- Pass stored for a satellite, Python entry.pass_obj with default None. -/
def entryPass (c : Cache) (sat_id : ℕ) : Option PassObj :=
  match cacheGet c sat_id with
  | some e => e.pass_obj
  | none => none

/-- Set timestamp stored for a satellite, 0 when no entry exists. -/
def entrySetTs (c : Cache) (sat_id : ℕ) : ℤ :=
  match cacheGet c sat_id with
  | some e => e.set_ts
  | none => 0

/-- Failure streak stored for a satellite, 0 when no entry exists. -/
def entryStreak (c : Cache) (sat_id : ℕ) : ℕ :=
  match cacheGet c sat_id with
  | some e => e.fail_streak
  | none => 0

/-- Condition under which _get_pass_with_cache reaches the fetcher call:
no fresh cached pass and no pending backoff (an absent entry always
proceeds to the fetch). -/
def resolveAttemptsFetch (c : Cache) (sat_id : ℕ) (now_utc : ℤ) (mono : ℚ) : Bool :=
  match cacheGet c sat_id with
  | some e => decide (e.set_ts < now_utc) && !(decide (mono < e.retry_after))
  | none => true

/-- Backoff deadline stored on the failure path (visibility.py lines
194-199) for the new streak value and random draw r: delay is
min(3600, 60 * 2^(streak-1)), jitter is delay * 0.1 * (2r - 1), and the
deadline is mono + max(1, delay + jitter). -/
def backoffUntil (streak : ℕ) (mono r : ℚ) : ℚ :=
  mono + max 1 (min 3600 (60 * 2 ^ (streak - 1)) +
    min 3600 (60 * 2 ^ (streak - 1)) * (1/10) * (2 * r - 1))

/-- Cache-hit path of _get_pass_with_cache (lines 183-186). -/
theorem resolve_hit (cache : Cache) (sat_id : ℕ) (lat lon : ℚ) (now_utc : ℤ)
    (fetcher : Fetcher) (mono : ℚ) (rs : List ℚ) (e : CacheEntry)
    (hcg : cacheGet cache sat_id = some e) (h1 : now_utc ≤ e.set_ts) :
    get_pass_with_cache cache sat_id lat lon now_utc fetcher mono rs =
      ⟨e.pass_obj, cache, 0, rs⟩ := by
  simp [get_pass_with_cache, hcg, h1]

/-- Backoff-skip path of _get_pass_with_cache (lines 187-189). -/
theorem resolve_backoff (cache : Cache) (sat_id : ℕ) (lat lon : ℚ) (now_utc : ℤ)
    (fetcher : Fetcher) (mono : ℚ) (rs : List ℚ) (e : CacheEntry)
    (hcg : cacheGet cache sat_id = some e) (h1 : ¬now_utc ≤ e.set_ts)
    (h2 : mono < e.retry_after) :
    get_pass_with_cache cache sat_id lat lon now_utc fetcher mono rs =
      ⟨none, cache, 0, rs⟩ := by
  simp [get_pass_with_cache, hcg, h1, h2]

/-- Fetch-failure path of _get_pass_with_cache (lines 192-204): the new
entry keeps the old pass and set timestamp, increments the streak, and
sets the jittered backoff deadline; one random draw is consumed. -/
theorem resolve_fail (cache : Cache) (sat_id : ℕ) (lat lon : ℚ) (now_utc : ℤ)
    (fetcher : Fetcher) (mono : ℚ) (rs : List ℚ)
    (ha : resolveAttemptsFetch cache sat_id now_utc mono = true)
    (hf : fetcher sat_id lat lon = none) :
    get_pass_with_cache cache sat_id lat lon now_utc fetcher mono rs =
      ⟨none,
        cacheSet cache sat_id
          ⟨entryPass cache sat_id, entrySetTs cache sat_id,
            backoffUntil (entryStreak cache sat_id + 1) mono (rs.headD 0),
            entryStreak cache sat_id + 1⟩,
        1, rs.tail⟩ := by
  cases hcg : cacheGet cache sat_id with
  | none =>
    simp [get_pass_with_cache, resolveFetch, hcg, hf, entryPass, entrySetTs, entryStreak,
      backoffUntil]
  | some e =>
    rw [resolveAttemptsFetch, hcg] at ha
    simp only [Bool.and_eq_true, decide_eq_true_eq, Bool.not_eq_true', decide_eq_false_iff_not]
      at ha
    simp [get_pass_with_cache, resolveFetch, hcg, hf, entryPass, entrySetTs, entryStreak,
      backoffUntil, not_le.mpr ha.1, ha.2]

/-- Fetch-success path with unparseable set timestamp (lines 206-216). -/
theorem resolve_success_nosts (cache : Cache) (sat_id : ℕ) (lat lon : ℚ) (now_utc : ℤ)
    (fetcher : Fetcher) (mono : ℚ) (rs : List ℚ) (p : PassObj)
    (ha : resolveAttemptsFetch cache sat_id now_utc mono = true)
    (hf : fetcher sat_id lat lon = some p) (hx : extract_set_ts p = none) :
    get_pass_with_cache cache sat_id lat lon now_utc fetcher mono rs =
      ⟨some p, cacheSet cache sat_id ⟨some p, 0, 0, 0⟩, 1, rs⟩ := by
  cases hcg : cacheGet cache sat_id with
  | none => simp [get_pass_with_cache, resolveFetch, hcg, hf, hx]
  | some e =>
    rw [resolveAttemptsFetch, hcg] at ha
    simp only [Bool.and_eq_true, decide_eq_true_eq, Bool.not_eq_true', decide_eq_false_iff_not]
      at ha
    simp [get_pass_with_cache, resolveFetch, hcg, hf, hx, not_le.mpr ha.1, ha.2]

/-- Fetch-success path with parseable set timestamp (lines 218-220). -/
theorem resolve_success (cache : Cache) (sat_id : ℕ) (lat lon : ℚ) (now_utc : ℤ)
    (fetcher : Fetcher) (mono : ℚ) (rs : List ℚ) (p : PassObj) (sts : ℤ)
    (ha : resolveAttemptsFetch cache sat_id now_utc mono = true)
    (hf : fetcher sat_id lat lon = some p) (hx : extract_set_ts p = some sts) :
    get_pass_with_cache cache sat_id lat lon now_utc fetcher mono rs =
      ⟨some p, cacheSet cache sat_id ⟨some p, sts, 0, 0⟩, 1, rs⟩ := by
  cases hcg : cacheGet cache sat_id with
  | none => simp [get_pass_with_cache, resolveFetch, hcg, hf, hx]
  | some e =>
    rw [resolveAttemptsFetch, hcg] at ha
    simp only [Bool.and_eq_true, decide_eq_true_eq, Bool.not_eq_true', decide_eq_false_iff_not]
      at ha
    simp [get_pass_with_cache, resolveFetch, hcg, hf, hx, not_le.mpr ha.1, ha.2]

/-- Exhaustive case split over the five behaviours of a resolve call. -/
theorem resolve_scenarios (cache : Cache) (sat_id : ℕ) (lat lon : ℚ) (now_utc : ℤ)
    (fetcher : Fetcher) (mono : ℚ) (rs : List ℚ) :
    (∃ e, cacheGet cache sat_id = some e ∧ now_utc ≤ e.set_ts ∧
      get_pass_with_cache cache sat_id lat lon now_utc fetcher mono rs =
        ⟨e.pass_obj, cache, 0, rs⟩) ∨
    (∃ e, cacheGet cache sat_id = some e ∧ ¬now_utc ≤ e.set_ts ∧ mono < e.retry_after ∧
      get_pass_with_cache cache sat_id lat lon now_utc fetcher mono rs =
        ⟨none, cache, 0, rs⟩) ∨
    (resolveAttemptsFetch cache sat_id now_utc mono = true ∧ fetcher sat_id lat lon = none ∧
      get_pass_with_cache cache sat_id lat lon now_utc fetcher mono rs =
        ⟨none, cacheSet cache sat_id
          ⟨entryPass cache sat_id, entrySetTs cache sat_id,
            backoffUntil (entryStreak cache sat_id + 1) mono (rs.headD 0),
            entryStreak cache sat_id + 1⟩, 1, rs.tail⟩) ∨
    (∃ p, resolveAttemptsFetch cache sat_id now_utc mono = true ∧
      fetcher sat_id lat lon = some p ∧ extract_set_ts p = none ∧
      get_pass_with_cache cache sat_id lat lon now_utc fetcher mono rs =
        ⟨some p, cacheSet cache sat_id ⟨some p, 0, 0, 0⟩, 1, rs⟩) ∨
    (∃ p sts, resolveAttemptsFetch cache sat_id now_utc mono = true ∧
      fetcher sat_id lat lon = some p ∧ extract_set_ts p = some sts ∧
      get_pass_with_cache cache sat_id lat lon now_utc fetcher mono rs =
        ⟨some p, cacheSet cache sat_id ⟨some p, sts, 0, 0⟩, 1, rs⟩) := by
  cases hcg : cacheGet cache sat_id with
  | some e =>
    by_cases h1 : now_utc ≤ e.set_ts
    · exact Or.inl ⟨e, rfl, h1,
        resolve_hit cache sat_id lat lon now_utc fetcher mono rs e hcg h1⟩
    · by_cases h2 : mono < e.retry_after
      · exact Or.inr (Or.inl ⟨e, rfl, h1, h2,
          resolve_backoff cache sat_id lat lon now_utc fetcher mono rs e hcg h1 h2⟩)
      · have ha : resolveAttemptsFetch cache sat_id now_utc mono = true := by
          simp [resolveAttemptsFetch, hcg, not_le.mp h1, h2]
        cases hf : fetcher sat_id lat lon with
        | none =>
          exact Or.inr (Or.inr (Or.inl ⟨ha, rfl,
            resolve_fail cache sat_id lat lon now_utc fetcher mono rs ha hf⟩))
        | some p =>
          cases hx : extract_set_ts p with
          | none =>
            exact Or.inr (Or.inr (Or.inr (Or.inl ⟨p, ha, rfl, hx,
              resolve_success_nosts cache sat_id lat lon now_utc fetcher mono rs p ha hf hx⟩)))
          | some sts =>
            exact Or.inr (Or.inr (Or.inr (Or.inr ⟨p, sts, ha, rfl, hx,
              resolve_success cache sat_id lat lon now_utc fetcher mono rs p sts ha hf hx⟩)))
  | none =>
    have ha : resolveAttemptsFetch cache sat_id now_utc mono = true := by
      simp [resolveAttemptsFetch, hcg]
    cases hf : fetcher sat_id lat lon with
    | none =>
      exact Or.inr (Or.inr (Or.inl ⟨ha, rfl,
        resolve_fail cache sat_id lat lon now_utc fetcher mono rs ha hf⟩))
    | some p =>
      cases hx : extract_set_ts p with
      | none =>
        exact Or.inr (Or.inr (Or.inr (Or.inl ⟨p, ha, rfl, hx,
          resolve_success_nosts cache sat_id lat lon now_utc fetcher mono rs p ha hf hx⟩)))
      | some sts =>
        exact Or.inr (Or.inr (Or.inr (Or.inr ⟨p, sts, ha, rfl, hx,
          resolve_success cache sat_id lat lon now_utc fetcher mono rs p sts ha hf hx⟩)))

/-- A resolve call touches no cache entry other than its own id. -/
theorem resolve_cache_other (cache : Cache) (sat_id other : ℕ) (lat lon : ℚ)
    (now_utc : ℤ) (fetcher : Fetcher) (mono : ℚ) (rs : List ℚ) (h : other ≠ sat_id) :
    cacheGet (get_pass_with_cache cache sat_id lat lon now_utc fetcher mono rs).cache other =
      cacheGet cache other := by
  rcases resolve_scenarios cache sat_id lat lon now_utc fetcher mono rs with
    ⟨e, _, _, hq⟩ | ⟨e, _, _, _, hq⟩ | ⟨_, _, hq⟩ | ⟨p, _, _, _, hq⟩ | ⟨p, sts, _, _, _, hq⟩ <;>
    rw [hq] <;>
    first
      | rfl
      | exact cacheGet_cacheSet_ne _ _ _ _ h

/-- The pass a resolve call returns is either absent, the cached pass,
or a pass produced by the fetcher for this satellite. -/
theorem resolve_pass_cases (cache : Cache) (sat_id : ℕ) (lat lon : ℚ) (now_utc : ℤ)
    (fetcher : Fetcher) (mono : ℚ) (rs : List ℚ) :
    (get_pass_with_cache cache sat_id lat lon now_utc fetcher mono rs).pass_obj = none ∨
    (∃ e, cacheGet cache sat_id = some e ∧
      (get_pass_with_cache cache sat_id lat lon now_utc fetcher mono rs).pass_obj = e.pass_obj) ∨
    (∃ p, fetcher sat_id lat lon = some p ∧
      (get_pass_with_cache cache sat_id lat lon now_utc fetcher mono rs).pass_obj = some p) := by
  rcases resolve_scenarios cache sat_id lat lon now_utc fetcher mono rs with
    ⟨e, he, _, hq⟩ | ⟨e, _, _, _, hq⟩ | ⟨_, _, hq⟩ | ⟨p, _, hf, _, hq⟩ |
    ⟨p, sts, _, hf, _, hq⟩ <;> rw [hq]
  · exact Or.inr (Or.inl ⟨e, he, rfl⟩)
  · exact Or.inl rfl
  · exact Or.inl rfl
  · exact Or.inr (Or.inr ⟨p, hf, rfl⟩)
  · exact Or.inr (Or.inr ⟨p, hf, rfl⟩)

/-- After a resolve call, the pass stored for the resolved id is either
absent, the previously stored pass, or a pass the fetcher produced. -/
theorem resolve_cache_self_cases (cache : Cache) (sat_id : ℕ) (lat lon : ℚ) (now_utc : ℤ)
    (fetcher : Fetcher) (mono : ℚ) (rs : List ℚ) (e' : CacheEntry)
    (h : cacheGet (get_pass_with_cache cache sat_id lat lon now_utc fetcher mono rs).cache sat_id
      = some e') :
    e'.pass_obj = none ∨
    (∃ e, cacheGet cache sat_id = some e ∧ e'.pass_obj = e.pass_obj) ∨
    (∃ p, fetcher sat_id lat lon = some p ∧ e'.pass_obj = some p) := by
  rcases resolve_scenarios cache sat_id lat lon now_utc fetcher mono rs with
    ⟨e, he, _, hq⟩ | ⟨e, he, _, _, hq⟩ | ⟨_, _, hq⟩ | ⟨p, _, hf, _, hq⟩ |
    ⟨p, sts, _, hf, _, hq⟩ <;> rw [hq] at h
  · rw [he] at h
    cases h
    exact Or.inr (Or.inl ⟨_, he, rfl⟩)
  · rw [he] at h
    cases h
    exact Or.inr (Or.inl ⟨_, he, rfl⟩)
  · rw [cacheGet_cacheSet_self] at h
    cases h
    cases hcg : cacheGet cache sat_id with
    | none => exact Or.inl (by simp [entryPass, hcg])
    | some e => exact Or.inr (Or.inl ⟨e, rfl, by simp [entryPass, hcg]⟩)
  · rw [cacheGet_cacheSet_self] at h
    cases h
    exact Or.inr (Or.inr ⟨p, hf, rfl⟩)
  · rw [cacheGet_cacheSet_self] at h
    cases h
    exact Or.inr (Or.inr ⟨p, hf, rfl⟩)

/-- Every pass the cache or the fetcher can associate with satellite sid
fails the overhead test at time now and threshold m. -/
def satPassesDead (now_utc : ℤ) (m : ℚ) (cache : Cache) (fetcher : Fetcher) (sid : ℕ) : Prop :=
  (∀ e, cacheGet cache sid = some e →
    ∀ p, e.pass_obj = some p → is_overhead_now p now_utc m = false) ∧
  (∀ lat lon p, fetcher sid lat lon = some p → is_overhead_now p now_utc m = false)

/-- The pass a visStep yields is absent, cached, or fetched. -/
theorem visStep_pass_cases (cfg : AppConfig) (now_utc : ℤ) (fetcher : Fetcher) (mono : ℚ)
    (sat_id : ℕ) (cache : Cache) (budget : ℤ) (rs : List ℚ) :
    (visStep cfg now_utc fetcher mono sat_id cache budget rs).1 = none ∨
    (∃ e, cacheGet cache sat_id = some e ∧
      (visStep cfg now_utc fetcher mono sat_id cache budget rs).1 = e.pass_obj) ∨
    (∃ p, fetcher sat_id cfg.lat cfg.lon = some p ∧
      (visStep cfg now_utc fetcher mono sat_id cache budget rs).1 = some p) := by
  unfold visStep
  split
  · rename_i e he
    split
    · exact Or.inr (Or.inl ⟨e, he, rfl⟩)
    · split
      · exact Or.inl rfl
      · split
        · rcases resolve_pass_cases cache sat_id cfg.lat cfg.lon now_utc fetcher mono rs with
            h | ⟨e2, he2, hp⟩ | ⟨p, hp, hpe⟩
          · exact Or.inl h
          · exact Or.inr (Or.inl ⟨e2, he2, hp⟩)
          · exact Or.inr (Or.inr ⟨p, hp, hpe⟩)
        · exact Or.inl rfl
  · split
    · exact Or.inl rfl
    · split
      · rcases resolve_pass_cases cache sat_id cfg.lat cfg.lon now_utc fetcher mono rs with
          h | ⟨e2, he2, hp⟩ | ⟨p, hp, hpe⟩
        · exact Or.inl h
        · exact Or.inr (Or.inl ⟨e2, he2, hp⟩)
        · exact Or.inr (Or.inr ⟨p, hp, hpe⟩)
      · exact Or.inl rfl

/-- A visStep touches no cache entry of another satellite. -/
theorem visStep_cache_other (cfg : AppConfig) (now_utc : ℤ) (fetcher : Fetcher) (mono : ℚ)
    (sat_id other : ℕ) (cache : Cache) (budget : ℤ) (rs : List ℚ) (h : other ≠ sat_id) :
    cacheGet (visStep cfg now_utc fetcher mono sat_id cache budget rs).2.1 other =
      cacheGet cache other := by
  unfold visStep
  split
  · split
    · rfl
    · split
      · rfl
      · split
        · exact resolve_cache_other cache sat_id other cfg.lat cfg.lon now_utc fetcher mono rs h
        · rfl
  · split
    · rfl
    · split
      · exact resolve_cache_other cache sat_id other cfg.lat cfg.lon now_utc fetcher mono rs h
      · rfl

/-- After a visStep, the pass stored for the stepped satellite is
absent, the previously stored one, or fetched. -/
theorem visStep_cache_self_cases (cfg : AppConfig) (now_utc : ℤ) (fetcher : Fetcher)
    (mono : ℚ) (sat_id : ℕ) (cache : Cache) (budget : ℤ) (rs : List ℚ) (e' : CacheEntry)
    (h : cacheGet (visStep cfg now_utc fetcher mono sat_id cache budget rs).2.1 sat_id
      = some e') :
    e'.pass_obj = none ∨
    (∃ e, cacheGet cache sat_id = some e ∧ e'.pass_obj = e.pass_obj) ∨
    (∃ p, fetcher sat_id cfg.lat cfg.lon = some p ∧ e'.pass_obj = some p) := by
  unfold visStep at h
  repeat' split at h
  all_goals try simp only [] at h
  all_goals first
    | exact resolve_cache_self_cases cache sat_id cfg.lat cfg.lon now_utc fetcher mono rs e' h
    | exact Or.inr (Or.inl ⟨_, h, rfl⟩)

/-- Deadness of one satellite's passes survives a visStep on any satellite. -/
theorem satPassesDead_visStep (cfg : AppConfig) (now_utc : ℤ) (fetcher : Fetcher) (mono : ℚ)
    (sid sat_id : ℕ) (cache : Cache) (budget : ℤ) (rs : List ℚ)
    (hdead : satPassesDead now_utc cfg.min_elevation_deg cache fetcher sid) :
    satPassesDead now_utc cfg.min_elevation_deg
      (visStep cfg now_utc fetcher mono sat_id cache budget rs).2.1 fetcher sid := by
  refine ⟨?_, hdead.2⟩
  intro e' he' p hp
  by_cases hks : sid = sat_id
  · subst hks
    rcases visStep_cache_self_cases cfg now_utc fetcher mono sid cache budget rs e' he' with
      hnone | ⟨e2, he2, hpe⟩ | ⟨p2, hp2, hpe⟩
    · rw [hnone] at hp
      cases hp
    · rw [hpe] at hp
      exact hdead.1 e2 he2 p hp
    · rw [hpe] at hp
      cases hp
      exact hdead.2 cfg.lat cfg.lon p hp2
  · rw [visStep_cache_other cfg now_utc fetcher mono sat_id sid cache budget rs hks] at he'
    exact hdead.1 e' he' p hp

/-- Unfolding equation for visLoop on a nonempty satellite list. -/
theorem visLoop_cons (cfg : AppConfig) (now_utc : ℤ) (fetcher : Fetcher) (mono : ℚ)
    (sat_id : ℕ) (color : String) (rest : List (ℕ × String)) (cache : Cache) (budget : ℤ)
    (rs : List ℚ) :
    visLoop cfg now_utc fetcher mono ((sat_id, color) :: rest) cache budget rs =
      ⟨(if (match (visStep cfg now_utc fetcher mono sat_id cache budget rs).1 with
            | some p => is_overhead_now p now_utc cfg.min_elevation_deg
            | none => false) = true
          then [(sat_id, color)] else []) ++
        (visLoop cfg now_utc fetcher mono rest
          (visStep cfg now_utc fetcher mono sat_id cache budget rs).2.1
          (visStep cfg now_utc fetcher mono sat_id cache budget rs).2.2.1
          (visStep cfg now_utc fetcher mono sat_id cache budget rs).2.2.2.1).results,
        (visLoop cfg now_utc fetcher mono rest
          (visStep cfg now_utc fetcher mono sat_id cache budget rs).2.1
          (visStep cfg now_utc fetcher mono sat_id cache budget rs).2.2.1
          (visStep cfg now_utc fetcher mono sat_id cache budget rs).2.2.2.1).cache,
        (visLoop cfg now_utc fetcher mono rest
          (visStep cfg now_utc fetcher mono sat_id cache budget rs).2.1
          (visStep cfg now_utc fetcher mono sat_id cache budget rs).2.2.1
          (visStep cfg now_utc fetcher mono sat_id cache budget rs).2.2.2.1).budget,
        (visLoop cfg now_utc fetcher mono rest
          (visStep cfg now_utc fetcher mono sat_id cache budget rs).2.1
          (visStep cfg now_utc fetcher mono sat_id cache budget rs).2.2.1
          (visStep cfg now_utc fetcher mono sat_id cache budget rs).2.2.2.1).rs,
        (visStep cfg now_utc fetcher mono sat_id cache budget rs).2.2.2.2 ++
        (visLoop cfg now_utc fetcher mono rest
          (visStep cfg now_utc fetcher mono sat_id cache budget rs).2.1
          (visStep cfg now_utc fetcher mono sat_id cache budget rs).2.2.1
          (visStep cfg now_utc fetcher mono sat_id cache budget rs).2.2.2.1).fetched⟩ := rfl

/-- If every pass associable with sid is dead, the per-satellite loop
never emits sid, regardless of the other satellites processed. -/
theorem visLoop_excludes_dead (cfg : AppConfig) (now_utc : ℤ) (fetcher : Fetcher) (mono : ℚ)
    (sid : ℕ) (sats : List (ℕ × String)) (cache : Cache) (budget : ℤ) (rs : List ℚ)
    (hdead : satPassesDead now_utc cfg.min_elevation_deg cache fetcher sid) :
    sid ∉ ((visLoop cfg now_utc fetcher mono sats cache budget rs).results.map Prod.fst) := by
  induction sats generalizing cache budget rs with
  | nil => simp [visLoop]
  | cons kv rest ih =>
    obtain ⟨sat_id, color⟩ := kv
    rw [visLoop_cons]
    simp only [List.map_append, List.mem_append]
    rintro (hhead | htail)
    · revert hhead
      split
      · rename_i hhit
        simp only [List.map_cons, List.map_nil, List.mem_singleton]
        intro hsid
        subst hsid
        -- the head element is satellite sid itself, whose pass is dead
        revert hhit
        split
        · rename_i p hp
          rcases visStep_pass_cases cfg now_utc fetcher mono sid cache budget rs with
            hnone | ⟨e2, he2, hpe⟩ | ⟨p2, hp2, hpe⟩
          · rw [hnone] at hp
            cases hp
          · rw [hpe] at hp
            rw [hdead.1 e2 he2 p hp]
            simp
          · rw [hpe] at hp
            injection hp with hpp
            subst hpp
            rw [hdead.2 cfg.lat cfg.lon _ hp2]
            simp
        · intro h
          cases h
      · simp
    · exact ih _ _ _ (satPassesDead_visStep cfg now_utc fetcher mono sid sat_id cache budget
        rs hdead) htail

/-- Claim C2: for every prediction record whose culmination altitude is
strictly below the threshold, computeWindow returns "never", the
overhead test is false for every now, and any satellite whose cached
and fetched passes are all this record never appears in the result of
visible_now. -/
theorem c2_below_threshold_never (r sp : Option PassPoint) (ct ca : Option PyVal)
    (m ac : ℚ) (hac : parse_alt_field ca = some ac) (hlt : ac < m) :
    compute_threshold_window ⟨r, some ⟨ct, ca⟩, sp⟩ m = none ∧
    (∀ now : ℤ, is_overhead_now ⟨r, some ⟨ct, ca⟩, sp⟩ now m = false) ∧
    (∀ (lat lon : ℚ) (sats : List (ℕ × String)) (st : VisState) (sid : ℕ) (now : ℤ)
        (mono : ℚ) (maxf : Option ℤ) (rs : List ℚ) (fetcher : Fetcher),
      (∀ lat2 lon2 p, fetcher sid lat2 lon2 = some p → p = ⟨r, some ⟨ct, ca⟩, sp⟩) →
      (∀ e, cacheGet st.cache sid = some e →
        ∀ p, e.pass_obj = some p → p = ⟨r, some ⟨ct, ca⟩, sp⟩) →
      sid ∉ ((visible_now ⟨lat, lon, sats, m⟩ st now fetcher mono maxf rs).results.map
        Prod.fst)) := by
  have hw := window_none_of_culm_below r sp ct ca m ac hac hlt
  have hov : ∀ now : ℤ, is_overhead_now ⟨r, some ⟨ct, ca⟩, sp⟩ now m = false := by
    intro now
    unfold is_overhead_now
    rw [hw]
  refine ⟨hw, hov, ?_⟩
  intro lat lon sats st sid now mono maxf rs fetcher hfet hcache
  have hdead : satPassesDead now m st.cache fetcher sid := by
    constructor
    · intro e he p hp
      rw [hcache e he p hp]
      exact hov now
    · intro lat2 lon2 p hp
      rw [hfet lat2 lon2 p hp]
      exact hov now
  cases sats with
  | nil => simp [visible_now]
  | cons kv rest =>
    rw [visible_now_def, if_neg (by simp :
      ¬(List.length ((⟨lat, lon, kv :: rest, m⟩ : AppConfig).satellites) = 0))]
    exact visLoop_excludes_dead ⟨lat, lon, kv :: rest, m⟩ now fetcher mono sid _ st.cache _ rs
      hdead


/-- Witness for C2 at the record rise = (1000, 3), culmination =
(1100, 10), set = (1200, 4) and threshold 28. -/
theorem c2_witness :
    parse_alt_field (some (PyVal.vfloat 10)) = some 10 ∧ (10:ℚ) < 28 ∧
    compute_threshold_window (mkPass 1000 3 1100 10 1200 4) 28 = none ∧
    is_overhead_now (mkPass 1000 3 1100 10 1200 4) 1100 28 = false := by
  refine ⟨rfl, by norm_num, ?_, ?_⟩
  · exact (c2_below_threshold_never (some ⟨some (.vint 1000), some (.vfloat 3)⟩)
      (some ⟨some (.vint 1200), some (.vfloat 4)⟩) (some (.vint 1100)) (some (.vfloat 10))
      28 10 rfl (by norm_num)).1
  · exact (c2_below_threshold_never (some ⟨some (.vint 1000), some (.vfloat 3)⟩)
      (some ⟨some (.vint 1200), some (.vfloat 4)⟩) (some (.vint 1100)) (some (.vfloat 10))
      28 10 rfl (by norm_num)).2.1 1100

/-- With the threshold between the two endpoint altitudes (at or below
the start, strictly above the end), the descending interpolation always
finds a crossing: the fraction lies inside [0,1]. -/
theorem cross_time_some_of_desc (t1 t2 : ℤ) (a1 a2 m : ℚ) (h1 : m ≤ a1) (h2 : a2 < m) :
    ∃ t, cross_time t1 a1 t2 a2 m = some t := by
  have hne : a1 ≠ a2 := fun h => absurd h2 (not_lt.mpr (h ▸ h1))
  have hf0 : 0 ≤ (m - a1) / (a2 - a1) :=
    div_nonneg_iff.mpr (Or.inr ⟨by linarith, by linarith⟩)
  have hf1 : (m - a1) / (a2 - a1) ≤ 1 :=
    div_le_one_iff.mpr (Or.inr (Or.inr ⟨by linarith, by linarith⟩))
  refine ⟨pyRound ((t1 : ℚ) + (m - a1) / (a2 - a1) * ((t2 : ℚ) - (t1 : ℚ))), ?_⟩
  simp only [cross_time, if_neg hne]
  rw [if_neg (by push_neg; exact ⟨hf0, hf1⟩)]

/-- With the threshold strictly above the start altitude and at or
below the end altitude, the ascending interpolation always finds a
crossing: the fraction lies inside [0,1]. -/
theorem cross_time_some_of_asc (t1 t2 : ℤ) (a1 a2 m : ℚ) (h1 : a1 < m) (h2 : m ≤ a2) :
    ∃ t, cross_time t1 a1 t2 a2 m = some t := by
  have hne : a1 ≠ a2 := fun h => absurd (lt_of_lt_of_le h1 h2) (h ▸ lt_irrefl a1)
  have hf0 : 0 ≤ (m - a1) / (a2 - a1) := div_nonneg (by linarith) (by linarith)
  have hf1 : (m - a1) / (a2 - a1) ≤ 1 := by
    rw [div_le_one (by linarith)]
    linarith
  refine ⟨pyRound ((t1 : ℚ) + (m - a1) / (a2 - a1) * ((t2 : ℚ) - (t1 : ℚ))), ?_⟩
  simp only [cross_time, if_neg hne]
  rw [if_neg (by push_neg; exact ⟨hf0, hf1⟩)]

/-- Counterexample to claim C3 as stated: for the flat record rise =
(1000, 5), culmination = (1100, 5), set = (1200, 5) and threshold 28,
the set altitude is strictly below the threshold and the descending
crossing is the out-of-range (flat no-crossing) case, yet computeWindow
returns "never" instead of a window ending at the set timestamp. -/
theorem c3_counterexample :
    (5:ℚ) < 28 ∧ cross_time 1100 5 1200 5 28 = none ∧
    compute_threshold_window (mkPass 1000 5 1100 5 1200 5) 28 = none := by
  with_unfolding_all decide

/-- Claim C3 (amended): whenever the set altitude is strictly below the
threshold and the descending crossing fraction falls outside [0,1]
(including the flat no-crossing case), the culmination altitude must
itself be below the threshold, so computeWindow returns "never" (the
exit = setTimestamp fallback is unreachable in exact arithmetic); and
on the ascending leg an out-of-range fraction also yields "never". -/
theorem c3_amended (tr tc ts : ℤ) (ar ac aS m : ℚ) :
    (aS < m → cross_time tc ac ts aS m = none →
      ac < m ∧ compute_threshold_window (mkPass tr ar tc ac ts aS) m = none) ∧
    (ar < m → cross_time tr ar tc ac m = none →
      compute_threshold_window (mkPass tr ar tc ac ts aS) m = none) := by
  constructor
  · intro haS hcross
    have hac : ac < m := by
      by_contra hge
      push_neg at hge
      obtain ⟨t, ht⟩ := cross_time_some_of_desc tc ts ac aS m hge haS
      rw [ht] at hcross
      cases hcross
    exact ⟨hac, window_none_of_culm_below _ _ _ _ m ac rfl hac⟩
  · intro har hcross
    by_cases hac : ac < m
    · exact window_none_of_culm_below _ _ _ _ m ac rfl hac
    · push_neg at hac
      obtain ⟨t, ht⟩ := cross_time_some_of_asc tr tc ar ac m har hac
      rw [ht] at hcross
      cases hcross

/-- Witness for C3 (amended) at the flat record of the counterexample. -/
theorem c3_amended_witness :
    (5:ℚ) < 28 ∧ cross_time 1100 5 1200 5 28 = none ∧
    ((5:ℚ) < 28 ∧ compute_threshold_window (mkPass 1000 5 1100 5 1200 5) 28 = none) ∧
    cross_time 1000 5 1100 5 28 = none ∧
    compute_threshold_window (mkPass 1000 5 1100 5 1200 5) 28 = none :=
  ⟨by norm_num, by with_unfolding_all decide,
    (c3_amended 1000 1100 1200 5 5 5 28).1 (by norm_num) (by with_unfolding_all decide),
    by with_unfolding_all decide,
    (c3_amended 1000 1100 1200 5 5 5 28).2 (by norm_num) (by with_unfolding_all decide)⟩

/-- A record has a missing or unparseable timestamp or altitude field:
one of the three points is absent, or one of the six fields fails
_safe_int or _parse_alt. -/
def hasBadField (p : PassObj) : Bool :=
  match p.rise, p.culmination, p.setp with
  | some r, some c, some s =>
    (safe_int_field r.utc_timestamp).isNone || (safe_int_field c.utc_timestamp).isNone ||
    (safe_int_field s.utc_timestamp).isNone || (parse_alt_field r.alt).isNone ||
    (parse_alt_field c.alt).isNone || (parse_alt_field s.alt).isNone
  | _, _, _ => true

/-- Claim C4: computeWindow is total by construction (it is a Lean
function into Option, mirroring the try/except that maps every failure
to None), and every record with a missing or unparseable
timestamp/altitude field evaluates to "never". -/
theorem c4_malformed_never (p : PassObj) (m : ℚ) (h : hasBadField p = true) :
    compute_threshold_window p m = none := by
  obtain ⟨r, c, s⟩ := p
  cases r with
  | none => rfl
  | some rp =>
    cases c with
    | none => simp [compute_threshold_window]
    | some cp =>
      cases s with
      | none => simp [compute_threshold_window]
      | some sp2 =>
        simp only [hasBadField, Bool.or_eq_true, Option.isNone_iff_eq_none] at h
        cases h1 : safe_int_field rp.utc_timestamp <;>
          cases h2 : safe_int_field cp.utc_timestamp <;>
          cases h3 : safe_int_field sp2.utc_timestamp <;>
          cases h4 : parse_alt_field rp.alt <;>
          cases h5 : parse_alt_field cp.alt <;>
          cases h6 : parse_alt_field sp2.alt <;>
          simp_all [compute_threshold_window]

/-- Record with an unparseable rise altitude string, for the C4 witness. -/
def recBad : PassObj :=
  ⟨some ⟨some (.vint 1000), some (.vstr "abc")⟩,
   some ⟨some (.vint 1100), some (.vfloat 46)⟩,
   some ⟨some (.vint 1200), some (.vfloat 10)⟩⟩

/-- Witness for C4 at a record whose rise altitude does not parse. -/
theorem c4_witness : hasBadField recBad = true ∧ compute_threshold_window recBad 28 = none :=
  ⟨by with_unfolding_all decide,
    c4_malformed_never recBad 28 (by with_unfolding_all decide)⟩

/-- The cache holds an entry for sat_id that is still fresh at now_utc. -/
def cacheCovers (c : Cache) (sat_id : ℕ) (now_utc : ℤ) : Bool :=
  match cacheGet c sat_id with
  | some e => decide (now_utc ≤ e.set_ts)
  | none => false

/-- Cache-hit path of the visible_now loop body: nothing changes and no
budget is consumed. -/
theorem visStep_hit (cfg : AppConfig) (now_utc : ℤ) (fetcher : Fetcher) (mono : ℚ)
    (sat_id : ℕ) (cache : Cache) (budget : ℤ) (rs : List ℚ) (e : CacheEntry)
    (hcg : cacheGet cache sat_id = some e) (h1 : now_utc ≤ e.set_ts) :
    visStep cfg now_utc fetcher mono sat_id cache budget rs =
      (e.pass_obj, cache, budget, rs, []) := by
  simp [visStep, hcg, h1]

/-- A resolve call invokes the fetcher at most once. -/
theorem resolve_fetches_le_one (cache : Cache) (sat_id : ℕ) (lat lon : ℚ) (now_utc : ℤ)
    (fetcher : Fetcher) (mono : ℚ) (rs : List ℚ) :
    (get_pass_with_cache cache sat_id lat lon now_utc fetcher mono rs).fetches ≤ 1 := by
  rcases resolve_scenarios cache sat_id lat lon now_utc fetcher mono rs with
    ⟨e, _, _, hq⟩ | ⟨e, _, _, _, hq⟩ | ⟨_, _, hq⟩ | ⟨p, _, _, _, hq⟩ |
    ⟨p, sts, _, _, _, hq⟩ <;> rw [hq] <;> simp

/-- Claim C5: a fresh cache entry is returned as-is with no fetcher
call, no cache change and no random draw; the loop body consumes no
budget on a cache hit; and two consecutive resolves both covered by the
cached set timestamp make at most one fetcher call in total. -/
theorem c5_cache_hit (cache : Cache) (sat_id : ℕ) (lat lon : ℚ) (now1 now2 : ℤ)
    (fetcher : Fetcher) (mono : ℚ) (rs : List ℚ) :
    (∀ e, cacheGet cache sat_id = some e → now1 ≤ e.set_ts →
      get_pass_with_cache cache sat_id lat lon now1 fetcher mono rs =
        ⟨e.pass_obj, cache, 0, rs⟩) ∧
    (∀ (cfg : AppConfig) (tag : String) (budget : ℤ),
      cacheCovers cache sat_id now1 = true →
      (visLoop cfg now1 fetcher mono [(sat_id, tag)] cache budget rs).budget = budget ∧
      (visLoop cfg now1 fetcher mono [(sat_id, tag)] cache budget rs).fetched = []) ∧
    (cacheCovers (get_pass_with_cache cache sat_id lat lon now1 fetcher mono rs).cache sat_id
        now2 = true →
      (get_pass_with_cache cache sat_id lat lon now1 fetcher mono rs).fetches +
        (get_pass_with_cache (get_pass_with_cache cache sat_id lat lon now1 fetcher mono rs).cache
          sat_id lat lon now2 fetcher mono
          (get_pass_with_cache cache sat_id lat lon now1 fetcher mono rs).rs).fetches ≤ 1) := by
  refine ⟨?_, ?_, ?_⟩
  · intro e hcg h1
    exact resolve_hit cache sat_id lat lon now1 fetcher mono rs e hcg h1
  · intro cfg tag budget hcov
    unfold cacheCovers at hcov
    revert hcov
    cases hcg : cacheGet cache sat_id with
    | none => intro hcov; cases hcov
    | some e =>
      intro hcov
      simp only [decide_eq_true_eq] at hcov
      rw [visLoop_cons, visStep_hit cfg now1 fetcher mono sat_id cache budget rs e hcg hcov]
      simp [visLoop]
  · intro hcov
    have h1 : (get_pass_with_cache cache sat_id lat lon now1 fetcher mono rs).fetches ≤ 1 :=
      resolve_fetches_le_one cache sat_id lat lon now1 fetcher mono rs
    unfold cacheCovers at hcov
    revert hcov
    cases hcg2 : cacheGet (get_pass_with_cache cache sat_id lat lon now1 fetcher mono rs).cache
        sat_id with
    | none => intro hcov; cases hcov
    | some e2 =>
      intro hcov
      simp only [decide_eq_true_eq] at hcov
      rw [resolve_hit _ sat_id lat lon now2 fetcher mono _ e2 hcg2 hcov]
      simpa using h1

/-- Witness for C5: a cached pass with set timestamp 2000 is served at
now = 100 and now = 150 with no fetch, no budget use, and at most one
fetcher call across the two resolves. -/
theorem c5_witness :
    (get_pass_with_cache [(1, ⟨some rec1, 2000, 0, 0⟩)] 1 0 0 100 (fun _ _ _ => none) 0 [] =
      ⟨some rec1, [(1, ⟨some rec1, 2000, 0, 0⟩)], 0, []⟩) ∧
    ((visLoop ⟨0, 0, [(1, "blue")], 28⟩ 100 (fun _ _ _ => none) 0 [(1, "blue")]
        [(1, ⟨some rec1, 2000, 0, 0⟩)] 7 []).budget = 7 ∧
      (visLoop ⟨0, 0, [(1, "blue")], 28⟩ 100 (fun _ _ _ => none) 0 [(1, "blue")]
        [(1, ⟨some rec1, 2000, 0, 0⟩)] 7 []).fetched = []) ∧
    ((get_pass_with_cache [(1, ⟨some rec1, 2000, 0, 0⟩)] 1 0 0 100 (fun _ _ _ => none) 0
        []).fetches +
      (get_pass_with_cache
        (get_pass_with_cache [(1, ⟨some rec1, 2000, 0, 0⟩)] 1 0 0 100
          (fun _ _ _ => none) 0 []).cache 1 0 0 150 (fun _ _ _ => none) 0
        (get_pass_with_cache [(1, ⟨some rec1, 2000, 0, 0⟩)] 1 0 0 100
          (fun _ _ _ => none) 0 []).rs).fetches ≤ 1) := by
  refine ⟨?_, ?_, ?_⟩
  · exact (c5_cache_hit [(1, ⟨some rec1, 2000, 0, 0⟩)] 1 0 0 100 150 (fun _ _ _ => none) 0
      []).1 ⟨some rec1, 2000, 0, 0⟩ rfl (by norm_num)
  · exact (c5_cache_hit [(1, ⟨some rec1, 2000, 0, 0⟩)] 1 0 0 100 150 (fun _ _ _ => none) 0
      []).2.1 ⟨0, 0, [(1, "blue")], 28⟩ "blue" 7 (by with_unfolding_all decide)
  · exact (c5_cache_hit [(1, ⟨some rec1, 2000, 0, 0⟩)] 1 0 0 100 150 (fun _ _ _ => none) 0
      []).2.2 (by with_unfolding_all decide)

/-- Claim C6: on a fetch failure the streak is incremented, the entry
keeps the previously cached pass and set timestamp, nothing is
returned, and the stored deadline is nowMonotonic + max(1, delay +
jitter) with delay = min(3600, 60 * 2^(failStreak)) for the old streak
and |jitter| bounded by a tenth of the delay; hence the deadline lies
within ±10% of delay after mono, the delay never exceeds 3600, and for
old streaks 0, 1, 2 it is exactly 60, 120, 240 seconds. -/
theorem c6_backoff (cache : Cache) (sat_id : ℕ) (lat lon : ℚ) (now_utc : ℤ)
    (fetcher : Fetcher) (mono : ℚ) (r : ℚ) (rest : List ℚ)
    (hf : fetcher sat_id lat lon = none)
    (ha : resolveAttemptsFetch cache sat_id now_utc mono = true)
    (hr0 : 0 ≤ r) (hr1 : r < 1) :
    (get_pass_with_cache cache sat_id lat lon now_utc fetcher mono (r :: rest) =
      ⟨none, cacheSet cache sat_id
        ⟨entryPass cache sat_id, entrySetTs cache sat_id,
          backoffUntil (entryStreak cache sat_id + 1) mono r,
          entryStreak cache sat_id + 1⟩, 1, rest⟩) ∧
    (min 3600 (60 * 2 ^ (entryStreak cache sat_id + 1 - 1)) =
      min (3600:ℚ) (60 * 2 ^ entryStreak cache sat_id)) ∧
    (min (3600:ℚ) (60 * 2 ^ entryStreak cache sat_id) ≤ 3600) ∧
    (|min (3600:ℚ) (60 * 2 ^ entryStreak cache sat_id) * (1/10) * (2 * r - 1)| ≤
      min (3600:ℚ) (60 * 2 ^ entryStreak cache sat_id) / 10) ∧
    (mono + (9/10) * min (3600:ℚ) (60 * 2 ^ entryStreak cache sat_id) ≤
      backoffUntil (entryStreak cache sat_id + 1) mono r) ∧
    (backoffUntil (entryStreak cache sat_id + 1) mono r ≤
      mono + (11/10) * min (3600:ℚ) (60 * 2 ^ entryStreak cache sat_id)) ∧
    (entryStreak cache sat_id = 0 →
      min (3600:ℚ) (60 * 2 ^ entryStreak cache sat_id) = 60) ∧
    (entryStreak cache sat_id = 1 →
      min (3600:ℚ) (60 * 2 ^ entryStreak cache sat_id) = 120) ∧
    (entryStreak cache sat_id = 2 →
      min (3600:ℚ) (60 * 2 ^ entryStreak cache sat_id) = 240) := by
  have hfail := resolve_fail cache sat_id lat lon now_utc fetcher mono (r :: rest) ha hf
  have hk : entryStreak cache sat_id + 1 - 1 = entryStreak cache sat_id := rfl
  have h2k : (1:ℚ) ≤ 2 ^ entryStreak cache sat_id :=
    one_le_pow₀ (by norm_num)
  have hd60 : (60:ℚ) ≤ min 3600 (60 * 2 ^ entryStreak cache sat_id) :=
    le_min (by norm_num) (le_mul_of_one_le_right (by norm_num) h2k)
  have hd0 : (0:ℚ) ≤ min 3600 (60 * 2 ^ entryStreak cache sat_id) := by linarith
  have habs : |2 * r - 1| ≤ 1 := abs_le.mpr ⟨by linarith, by linarith⟩
  have hj : |min (3600:ℚ) (60 * 2 ^ entryStreak cache sat_id) * (1/10) * (2 * r - 1)| ≤
      min (3600:ℚ) (60 * 2 ^ entryStreak cache sat_id) / 10 := by
    rw [abs_mul, abs_of_nonneg (by positivity :
      (0:ℚ) ≤ min (3600:ℚ) (60 * 2 ^ entryStreak cache sat_id) * (1/10))]
    calc min (3600:ℚ) (60 * 2 ^ entryStreak cache sat_id) * (1/10) * |2 * r - 1| ≤
        min (3600:ℚ) (60 * 2 ^ entryStreak cache sat_id) * (1/10) * 1 :=
          mul_le_mul_of_nonneg_left habs (by positivity)
      _ = min (3600:ℚ) (60 * 2 ^ entryStreak cache sat_id) / 10 := by ring
  have hjlo := (abs_le.mp hj).1
  have hjhi := (abs_le.mp hj).2
  have hbu : backoffUntil (entryStreak cache sat_id + 1) mono r =
      mono + max 1 (min (3600:ℚ) (60 * 2 ^ entryStreak cache sat_id) +
        min (3600:ℚ) (60 * 2 ^ entryStreak cache sat_id) * (1/10) * (2 * r - 1)) := by
    rw [backoffUntil, hk]
  refine ⟨hfail, by rw [hk], min_le_left _ _, hj, ?_, ?_, ?_, ?_, ?_⟩
  · rw [hbu]
    have h1 : (9/10) * min (3600:ℚ) (60 * 2 ^ entryStreak cache sat_id) ≤
        min (3600:ℚ) (60 * 2 ^ entryStreak cache sat_id) +
        min (3600:ℚ) (60 * 2 ^ entryStreak cache sat_id) * (1/10) * (2 * r - 1) := by
      linarith
    exact add_le_add_left (le_trans h1 (le_max_right _ _)) mono
  · rw [hbu]
    have h1 : (1:ℚ) ≤ mono + (11/10) * min (3600:ℚ) (60 * 2 ^ entryStreak cache sat_id) -
        mono := by linarith
    exact add_le_add_left (max_le (by linarith) (by linarith)) mono
  · intro h0
    rw [h0]
    norm_num
  · intro h0
    rw [h0]
    norm_num
  · intro h0
    rw [h0]
    norm_num

/-- Witness for C6: first failure on an empty cache with draw 1/2
stores streak 1 and the jittered deadline, and the deadline obeys the
+10% bound. -/
theorem c6_witness :
    ((fun _ _ _ => (none : Option PassObj)) 1 (0:ℚ) (0:ℚ) = none) ∧
    resolveAttemptsFetch [] 1 100 0 = true ∧ (0:ℚ) ≤ 1/2 ∧ (1/2:ℚ) < 1 ∧
    (get_pass_with_cache [] 1 0 0 100 (fun _ _ _ => none) 0 (1/2 :: []) =
      ⟨none, cacheSet [] 1 ⟨entryPass [] 1, entrySetTs [] 1,
        backoffUntil (entryStreak [] 1 + 1) 0 (1/2), entryStreak [] 1 + 1⟩, 1, []⟩) ∧
    backoffUntil (entryStreak [] 1 + 1) 0 (1/2) ≤
      0 + (11/10) * min (3600:ℚ) (60 * 2 ^ entryStreak [] 1) :=
  ⟨rfl, rfl, by norm_num, by norm_num,
    (c6_backoff [] 1 0 0 100 (fun _ _ _ => none) 0 (1/2) [] rfl rfl (by norm_num)
      (by norm_num)).1,
    (c6_backoff [] 1 0 0 100 (fun _ _ _ => none) 0 (1/2) [] rfl rfl (by norm_num)
      (by norm_num)).2.2.2.2.2.1⟩

/-- Claim C7: a successful fetch returns the record for the current
cycle; with an unparseable set timestamp the record is stored with
setTimestamp 0 and failStreak and retryAfter reset to 0, and with a
parseable one the entry is replaced by the new record, its set
timestamp, retryAfter 0 and failStreak 0. -/
theorem c7_success_paths (cache : Cache) (sat_id : ℕ) (lat lon : ℚ) (now_utc : ℤ)
    (fetcher : Fetcher) (mono : ℚ) (rs : List ℚ) (pobj : PassObj)
    (ha : resolveAttemptsFetch cache sat_id now_utc mono = true)
    (hf : fetcher sat_id lat lon = some pobj) :
    (extract_set_ts pobj = none →
      get_pass_with_cache cache sat_id lat lon now_utc fetcher mono rs =
        ⟨some pobj, cacheSet cache sat_id ⟨some pobj, 0, 0, 0⟩, 1, rs⟩) ∧
    (∀ sts, extract_set_ts pobj = some sts →
      get_pass_with_cache cache sat_id lat lon now_utc fetcher mono rs =
        ⟨some pobj, cacheSet cache sat_id ⟨some pobj, sts, 0, 0⟩, 1, rs⟩) :=
  ⟨fun hx => resolve_success_nosts cache sat_id lat lon now_utc fetcher mono rs pobj ha hf hx,
   fun sts hx => resolve_success cache sat_id lat lon now_utc fetcher mono rs pobj sts ha hf hx⟩

/-- Record whose set timestamp does not parse, for the C7 witness. -/
def recNoSts : PassObj :=
  ⟨some ⟨some (.vint 1000), some (.vfloat 10)⟩,
   some ⟨some (.vint 1100), some (.vfloat 46)⟩,
   some ⟨some (.vstr "x"), some (.vfloat 10)⟩⟩

/-- Witness for C7 on both success paths. -/
theorem c7_witness :
    extract_set_ts recNoSts = none ∧
    (get_pass_with_cache [] 2 0 0 100 (fun _ _ _ => some recNoSts) 0 [] =
      ⟨some recNoSts, cacheSet [] 2 ⟨some recNoSts, 0, 0, 0⟩, 1, []⟩) ∧
    extract_set_ts rec1 = some 1200 ∧
    (get_pass_with_cache [] 3 0 0 100 (fun _ _ _ => some rec1) 0 [] =
      ⟨some rec1, cacheSet [] 3 ⟨some rec1, 1200, 0, 0⟩, 1, []⟩) := by
  refine ⟨by with_unfolding_all decide, ?_, rfl, ?_⟩
  · exact (c7_success_paths [] 2 0 0 100 (fun _ _ _ => some recNoSts) 0 [] recNoSts rfl rfl).1
      (by with_unfolding_all decide)
  · exact (c7_success_paths [] 3 0 0 100 (fun _ _ _ => some rec1) 0 [] rec1 rfl rfl).2 1200 rfl

/-- The cycle rotation of visible_now is List.rotate. -/
theorem cycleOrder_eq_rotate (sats : List (ℕ × String)) (idx : ℕ) :
    cycleOrder sats idx = sats.rotate idx :=
  List.rotate_eq_drop_append_take_mod.symm

/-- The emitted results follow the processing order: they form a
sublist of the satellite list handed to the loop. -/
theorem visLoop_results_sublist (cfg : AppConfig) (now_utc : ℤ) (fetcher : Fetcher)
    (mono : ℚ) :
    ∀ (sats : List (ℕ × String)) (cache : Cache) (budget : ℤ) (rs : List ℚ),
      (visLoop cfg now_utc fetcher mono sats cache budget rs).results.Sublist sats
  | [], cache, budget, rs => by simp [visLoop]
  | (sat_id, color) :: rest, cache, budget, rs => by
    rw [visLoop_cons]
    have ih := visLoop_results_sublist cfg now_utc fetcher mono rest
      (visStep cfg now_utc fetcher mono sat_id cache budget rs).2.1
      (visStep cfg now_utc fetcher mono sat_id cache budget rs).2.2.1
      (visStep cfg now_utc fetcher mono sat_id cache budget rs).2.2.2.1
    split
    · exact List.Sublist.cons₂ _ ih
    · exact List.Sublist.cons _ ih

/-- Claim C8: with an empty satellite list the cycle is a no-op that
returns no results and leaves state untouched; with a nonempty list
the rotating index advances by exactly one modulo the count, the
satellite at the current index is processed first, and the emitted
results follow the rotated processing order. -/
theorem c8_rotation (cfg : AppConfig) (st : VisState) (now_utc : ℤ) (fetcher : Fetcher)
    (mono : ℚ) (maxf : Option ℤ) (rs : List ℚ) :
    (cfg.satellites = [] →
      visible_now cfg st now_utc fetcher mono maxf rs = ⟨[], st, [], rs⟩) ∧
    (cfg.satellites ≠ [] →
      (visible_now cfg st now_utc fetcher mono maxf rs).state.rr_idx =
        (st.rr_idx + 1) % cfg.satellites.length ∧
      (cycleOrder cfg.satellites st.rr_idx).head? =
        cfg.satellites[st.rr_idx % cfg.satellites.length]? ∧
      (visible_now cfg st now_utc fetcher mono maxf rs).results.Sublist
        (cycleOrder cfg.satellites st.rr_idx)) := by
  constructor
  · intro h
    rw [visible_now_def, if_pos (by rw [h]; rfl)]
  · intro h
    have hn : 0 < cfg.satellites.length := List.length_pos.mpr h
    refine ⟨?_, ?_, ?_⟩
    · rw [visible_now_def, if_neg (by omega)]
    · rw [cycleOrder_eq_rotate, ← List.rotate_mod]
      exact List.head?_rotate (Nat.mod_lt _ hn)
    · rw [visible_now_def, if_neg (by omega)]
      exact visLoop_results_sublist cfg now_utc fetcher mono _ st.cache _ rs

/-- Witness for C8 on an empty and a two-satellite configuration. -/
theorem c8_witness :
    (visible_now ⟨0, 0, [], 28⟩ ⟨[], 5⟩ 100 (fun _ _ _ => none) 0 none [] =
      ⟨[], ⟨[], 5⟩, [], []⟩) ∧
    (visible_now ⟨0, 0, [(1, "a"), (2, "b")], 28⟩ ⟨[], 5⟩ 100 (fun _ _ _ => none) 0 none
      []).state.rr_idx = (5 + 1) % 2 ∧
    (cycleOrder [(1, "a"), (2, "b")] 5).head? = [(1, "a"), (2, "b")][5 % 2]? ∧
    (visible_now ⟨0, 0, [(1, "a"), (2, "b")], 28⟩ ⟨[], 5⟩ 100 (fun _ _ _ => none) 0 none
      []).results.Sublist (cycleOrder [(1, "a"), (2, "b")] 5) := by
  refine ⟨(c8_rotation ⟨0, 0, [], 28⟩ ⟨[], 5⟩ 100 (fun _ _ _ => none) 0 none []).1 rfl,
    ?_, ?_, ?_⟩
  · exact ((c8_rotation ⟨0, 0, [(1, "a"), (2, "b")], 28⟩ ⟨[], 5⟩ 100 (fun _ _ _ => none) 0
      none []).2 (List.cons_ne_nil _ _)).1
  · exact ((c8_rotation ⟨0, 0, [(1, "a"), (2, "b")], 28⟩ ⟨[], 5⟩ 100 (fun _ _ _ => none) 0
      none []).2 (List.cons_ne_nil _ _)).2.1
  · exact ((c8_rotation ⟨0, 0, [(1, "a"), (2, "b")], 28⟩ ⟨[], 5⟩ 100 (fun _ _ _ => none) 0
      none []).2 (List.cons_ne_nil _ _)).2.2

/-- Eligibility for a fetch attempt in the visible_now loop body
(visibility.py lines 259-264): no fresh cached pass and not in backoff
(with the entry-less backoff comparison against 0.0). -/
def eligibleOuter (c : Cache) (sat_id : ℕ) (now_utc : ℤ) (mono : ℚ) : Bool :=
  match cacheGet c sat_id with
  | some e => decide (e.set_ts < now_utc) && !(decide (mono < e.retry_after))
  | none => !(decide (mono < 0))

/-- Eligibility depends only on the satellite's own cache entry. -/
theorem eligibleOuter_congr (c1 c2 : Cache) (sat_id : ℕ) (now_utc : ℤ) (mono : ℚ)
    (h : cacheGet c1 sat_id = cacheGet c2 sat_id) :
    eligibleOuter c1 sat_id now_utc mono = eligibleOuter c2 sat_id now_utc mono := by
  unfold eligibleOuter
  rw [h]

/-- Iterate visible_now for a number of cycles with a fixed clock pair,
threading state and the random stream, collecting all fetched ids. -/
def runCycles (cfg : AppConfig) (now_utc : ℤ) (fetcher : Fetcher) (mono : ℚ)
    (maxf : Option ℤ) : ℕ → VisState → List ℚ → VisState × List ℕ
  | 0, st, _ => (st, [])
  | k + 1, st, rs =>
    ((runCycles cfg now_utc fetcher mono maxf k
        (visible_now cfg st now_utc fetcher mono maxf rs).state
        (visible_now cfg st now_utc fetcher mono maxf rs).rs).1,
      (visible_now cfg st now_utc fetcher mono maxf rs).fetched ++
      (runCycles cfg now_utc fetcher mono maxf k
        (visible_now cfg st now_utc fetcher mono maxf rs).state
        (visible_now cfg st now_utc fetcher mono maxf rs).rs).2)

/-- With no budget left, the loop body changes nothing and attempts no fetch. -/
theorem visStep_no_budget (cfg : AppConfig) (now_utc : ℤ) (fetcher : Fetcher) (mono : ℚ)
    (sat_id : ℕ) (cache : Cache) (budget : ℤ) (rs : List ℚ) (hb : budget ≤ 0) :
    (visStep cfg now_utc fetcher mono sat_id cache budget rs).2 = (cache, budget, rs, []) := by
  unfold visStep
  split
  · split
    · rfl
    · split
      · rfl
      · rw [if_neg (not_lt.mpr hb)]
  · split
    · rfl
    · rw [if_neg (not_lt.mpr hb)]

/-- With no budget left, the whole loop changes no state and fetches nothing. -/
theorem visLoop_no_budget (cfg : AppConfig) (now_utc : ℤ) (fetcher : Fetcher) (mono : ℚ) :
    ∀ (sats : List (ℕ × String)) (cache : Cache) (budget : ℤ) (rs : List ℚ), budget ≤ 0 →
      (visLoop cfg now_utc fetcher mono sats cache budget rs).cache = cache ∧
      (visLoop cfg now_utc fetcher mono sats cache budget rs).budget = budget ∧
      (visLoop cfg now_utc fetcher mono sats cache budget rs).rs = rs ∧
      (visLoop cfg now_utc fetcher mono sats cache budget rs).fetched = []
  | [], cache, budget, rs, hb => by simp [visLoop]
  | (sat_id, color) :: rest, cache, budget, rs, hb => by
    have hs := visStep_no_budget cfg now_utc fetcher mono sat_id cache budget rs hb
    have h1 : (visStep cfg now_utc fetcher mono sat_id cache budget rs).2.1 = cache := by
      rw [hs]
    have h2 : (visStep cfg now_utc fetcher mono sat_id cache budget rs).2.2.1 = budget := by
      rw [hs]
    have h3 : (visStep cfg now_utc fetcher mono sat_id cache budget rs).2.2.2.1 = rs := by
      rw [hs]
    have h4 : (visStep cfg now_utc fetcher mono sat_id cache budget rs).2.2.2.2 = [] := by
      rw [hs]
    rw [visLoop_cons, h1, h2, h3, h4]
    have ih := visLoop_no_budget cfg now_utc fetcher mono rest cache budget rs hb
    simp [ih.1, ih.2.1, ih.2.2.1, ih.2.2.2]

/-- An eligible satellite with budget available triggers exactly the
resolve call, decrementing the budget by one. -/
theorem visStep_fetch (cfg : AppConfig) (now_utc : ℤ) (fetcher : Fetcher) (mono : ℚ)
    (sat_id : ℕ) (cache : Cache) (budget : ℤ) (rs : List ℚ)
    (he : eligibleOuter cache sat_id now_utc mono = true) (hb : 0 < budget) :
    visStep cfg now_utc fetcher mono sat_id cache budget rs =
      ((get_pass_with_cache cache sat_id cfg.lat cfg.lon now_utc fetcher mono rs).pass_obj,
       (get_pass_with_cache cache sat_id cfg.lat cfg.lon now_utc fetcher mono rs).cache,
       budget - 1,
       (get_pass_with_cache cache sat_id cfg.lat cfg.lon now_utc fetcher mono rs).rs,
       [sat_id]) := by
  unfold eligibleOuter at he
  revert he
  cases hcg : cacheGet cache sat_id with
  | some e =>
    intro he
    simp only [Bool.and_eq_true, decide_eq_true_eq, Bool.not_eq_true',
      decide_eq_false_iff_not] at he
    simp [visStep, hcg, not_le.mpr he.1, he.2, hb]
  | none =>
    intro he
    simp only [Bool.not_eq_true', decide_eq_false_iff_not] at he
    simp [visStep, hcg, he, hb]

/-- With budget 1 and an eligible head satellite, the loop fetches
exactly the head and leaves every other satellite's entry unchanged. -/
theorem visLoop_budget1 (cfg : AppConfig) (now_utc : ℤ) (fetcher : Fetcher) (mono : ℚ)
    (sat_id : ℕ) (color : String) (rest : List (ℕ × String)) (cache : Cache) (rs : List ℚ)
    (he : eligibleOuter cache sat_id now_utc mono = true) :
    (visLoop cfg now_utc fetcher mono ((sat_id, color) :: rest) cache 1 rs).fetched =
      [sat_id] ∧
    (∀ other, other ≠ sat_id →
      cacheGet (visLoop cfg now_utc fetcher mono ((sat_id, color) :: rest) cache 1 rs).cache
        other = cacheGet cache other) := by
  rw [visLoop_cons,
    visStep_fetch cfg now_utc fetcher mono sat_id cache 1 rs he (by norm_num)]
  have hnb := visLoop_no_budget cfg now_utc fetcher mono rest
    (get_pass_with_cache cache sat_id cfg.lat cfg.lon now_utc fetcher mono rs).cache
    (0:ℤ)
    (get_pass_with_cache cache sat_id cfg.lat cfg.lon now_utc fetcher mono rs).rs
    le_rfl
  constructor
  · simp [hnb.2.2.2]
  · intro other ho
    have hbud : (1:ℤ) - 1 = 0 := by norm_num
    rw [hbud]
    show cacheGet (visLoop cfg now_utc fetcher mono rest _ _ _).cache other = _
    rw [hnb.1]
    exact resolve_cache_other cache sat_id other cfg.lat cfg.lon now_utc fetcher mono rs ho

/-- Taking at most the length of the left part of an append stays in it. -/
theorem take_append_left {α : Type} : ∀ (l1 l2 : List α) (k : ℕ), k ≤ l1.length →
    (l1 ++ l2).take k = l1.take k
  | _, _, 0, _ => by simp
  | [], _, k + 1, h => by simp at h
  | a :: l1, l2, k + 1, h => by
    simp only [List.cons_append, List.take_succ_cons]
    rw [take_append_left l1 l2 k (by simpa using h)]

/-- Core of the round-robin fairness argument: with budget 1 per cycle
and every satellite among the next k rotation heads eligible, k cycles
fetch exactly the first k satellites of the current rotation, in order. -/
theorem runCycles_budget1 (cfg : AppConfig) (now_utc : ℤ) (fetcher : Fetcher) (mono : ℚ) :
    ∀ (k idx : ℕ) (cache : Cache) (rs : List ℚ),
      k ≤ cfg.satellites.length →
      (cfg.satellites.map Prod.fst).Nodup →
      (∀ pr ∈ (cfg.satellites.rotate idx).take k,
        eligibleOuter cache pr.1 now_utc mono = true) →
      (runCycles cfg now_utc fetcher mono (some 1) k ⟨cache, idx⟩ rs).2 =
        ((cfg.satellites.rotate idx).take k).map Prod.fst
  | 0, idx, cache, rs, _, _, _ => by simp [runCycles]
  | k + 1, idx, cache, rs, hk, hnodup, helig => by
    have hlen : 0 < cfg.satellites.length := by omega
    have hne : cfg.satellites ≠ [] := by
      intro h
      rw [h] at hlen
      simp at hlen
    have hrne : cfg.satellites.rotate idx ≠ [] := by
      simpa [List.rotate_eq_nil_iff] using hne
    obtain ⟨⟨sid, tag⟩, rtail, hr⟩ : ∃ x xs, cfg.satellites.rotate idx = x :: xs := by
      cases hx : cfg.satellites.rotate idx with
      | nil => exact absurd hx hrne
      | cons x xs => exact ⟨x, xs, rfl⟩
    have hlenr : rtail.length + 1 = cfg.satellites.length := by
      have hlr := List.length_rotate cfg.satellites idx
      rw [hr] at hlr
      simpa using hlr
    have hsid_elig : eligibleOuter cache sid now_utc mono = true :=
      helig (sid, tag) (by rw [hr, List.take_succ_cons]; exact List.mem_cons_self _ _)
    have hvn : visible_now cfg ⟨cache, idx⟩ now_utc fetcher mono (some 1) rs =
        ⟨(visLoop cfg now_utc fetcher mono ((sid, tag) :: rtail) cache 1 rs).results,
          ⟨(visLoop cfg now_utc fetcher mono ((sid, tag) :: rtail) cache 1 rs).cache,
            (idx + 1) % cfg.satellites.length⟩,
          (visLoop cfg now_utc fetcher mono ((sid, tag) :: rtail) cache 1 rs).fetched,
          (visLoop cfg now_utc fetcher mono ((sid, tag) :: rtail) cache 1 rs).rs⟩ := by
      rw [visible_now_def, if_neg (by omega)]
      rw [cycleOrder_eq_rotate, hr]
    obtain ⟨hfet, hcac⟩ := visLoop_budget1 cfg now_utc fetcher mono sid tag rtail cache rs
      hsid_elig
    have hstate : (visible_now cfg ⟨cache, idx⟩ now_utc fetcher mono (some 1) rs).state =
        ⟨(visLoop cfg now_utc fetcher mono ((sid, tag) :: rtail) cache 1 rs).cache,
          (idx + 1) % cfg.satellites.length⟩ := by rw [hvn]
    have hfetched : (visible_now cfg ⟨cache, idx⟩ now_utc fetcher mono (some 1) rs).fetched =
        [sid] := by rw [hvn]; exact hfet
    have hrscyc : (visible_now cfg ⟨cache, idx⟩ now_utc fetcher mono (some 1) rs).rs =
        (visLoop cfg now_utc fetcher mono ((sid, tag) :: rtail) cache 1 rs).rs := by rw [hvn]
    have hrot1 : cfg.satellites.rotate ((idx + 1) % cfg.satellites.length) =
        rtail ++ [(sid, tag)] := by
      rw [List.rotate_mod, ← List.rotate_rotate cfg.satellites idx 1, hr,
        show (1:ℕ) = 0 + 1 from rfl, List.rotate_cons_succ, List.rotate_zero]
    have hkr : k ≤ rtail.length := by omega
    have helig2 : ∀ pr ∈ (cfg.satellites.rotate
        ((idx + 1) % cfg.satellites.length)).take k,
        eligibleOuter (visLoop cfg now_utc fetcher mono ((sid, tag) :: rtail) cache 1
          rs).cache pr.1 now_utc mono = true := by
      intro pr hpr
      rw [hrot1, take_append_left rtail [(sid, tag)] k hkr] at hpr
      have hprr : pr ∈ rtail := List.mem_of_mem_take hpr
      have hnodup_r : ((cfg.satellites.rotate idx).map Prod.fst).Nodup := by
        rw [List.map_rotate]
        exact List.nodup_rotate.mpr hnodup
      rw [hr, List.map_cons] at hnodup_r
      have hsid_notin : sid ∉ rtail.map Prod.fst := (List.nodup_cons.mp hnodup_r).1
      have hne_sid : pr.1 ≠ sid := by
        intro hh
        exact hsid_notin (hh ▸ List.mem_map_of_mem Prod.fst hprr)
      rw [eligibleOuter_congr _ cache pr.1 now_utc mono (hcac pr.1 hne_sid)]
      exact helig pr (by
        rw [hr, List.take_succ_cons]
        exact List.mem_cons_of_mem _ hpr)
    have ih := runCycles_budget1 cfg now_utc fetcher mono k
      ((idx + 1) % cfg.satellites.length)
      (visLoop cfg now_utc fetcher mono ((sid, tag) :: rtail) cache 1 rs).cache
      (visLoop cfg now_utc fetcher mono ((sid, tag) :: rtail) cache 1 rs).rs
      (by omega) hnodup helig2
    show (visible_now cfg ⟨cache, idx⟩ now_utc fetcher mono (some 1) rs).fetched ++
        (runCycles cfg now_utc fetcher mono (some 1) k
          (visible_now cfg ⟨cache, idx⟩ now_utc fetcher mono (some 1) rs).state
          (visible_now cfg ⟨cache, idx⟩ now_utc fetcher mono (some 1) rs).rs).2 = _
    rw [hfetched, hstate, hrscyc, ih, hrot1, take_append_left rtail [(sid, tag)] k hkr,
      hr, List.take_succ_cons, List.map_cons]
    rfl

/-- Claim C9: with N configured satellites with distinct ids, a fetch
budget of 1 per cycle, and every satellite initially eligible (expired
or absent entry, not in backoff), N consecutive cycles invoke the
Fetcher exactly once per satellite, in rotation order: the concatenated
fetch log equals the satellite list rotated to the current index,
projected to ids (which is duplicate-free). -/
theorem c9_round_robin (cfg : AppConfig) (st : VisState) (now_utc : ℤ) (fetcher : Fetcher)
    (mono : ℚ) (rs : List ℚ) (_hne : cfg.satellites ≠ [])
    (hnodup : (cfg.satellites.map Prod.fst).Nodup)
    (helig : ∀ pr ∈ cfg.satellites, eligibleOuter st.cache pr.1 now_utc mono = true) :
    (runCycles cfg now_utc fetcher mono (some 1) cfg.satellites.length st rs).2 =
      (cfg.satellites.rotate st.rr_idx).map Prod.fst ∧
    ((cfg.satellites.rotate st.rr_idx).map Prod.fst).Nodup := by
  obtain ⟨cache, idx⟩ := st
  constructor
  · have h := runCycles_budget1 cfg now_utc fetcher mono cfg.satellites.length idx cache rs
      le_rfl hnodup (fun pr hpr => helig pr
        (List.mem_rotate.mp (List.mem_of_mem_take hpr)))
    rw [h, List.take_of_length_le (by rw [List.length_rotate])]
  · rw [List.map_rotate]
    exact List.nodup_rotate.mpr hnodup

/-- Witness for C9: three satellites, empty cache, budget 1, three
cycles starting at index 0 fetch ids 1, 2, 3 in order. -/
theorem c9_witness :
    (runCycles ⟨0, 0, [(1, "a"), (2, "b"), (3, "c")], 28⟩ 100 (fun _ _ _ => none) 0 (some 1)
      3 ⟨[], 0⟩ []).2 = [1, 2, 3] := by
  have h := (c9_round_robin ⟨0, 0, [(1, "a"), (2, "b"), (3, "c")], 28⟩ ⟨[], 0⟩ 100
    (fun _ _ _ => none) 0 [] (by simp) (by decide) (by decide)).1
  rw [List.rotate_zero] at h
  exact h

/-- Entries equal except possibly in retry_after, where both sides must
then still be in the future of the monotonic clock. -/
def entryRel (mono : ℚ) (e1 e2 : CacheEntry) : Prop :=
  e1.pass_obj = e2.pass_obj ∧ e1.set_ts = e2.set_ts ∧ e1.fail_streak = e2.fail_streak ∧
  (e1.retry_after = e2.retry_after ∨ (mono < e1.retry_after ∧ mono < e2.retry_after))

/-- Caches agreeing entry-wise up to entryRel. -/
def cacheRel (mono : ℚ) (c1 c2 : Cache) : Prop :=
  ∀ sat_id, (cacheGet c1 sat_id = none ∧ cacheGet c2 sat_id = none) ∨
    (∃ e1 e2, cacheGet c1 sat_id = some e1 ∧ cacheGet c2 sat_id = some e2 ∧
      entryRel mono e1 e2)

/-- Identical caches are related. -/
theorem cacheRel_refl (mono : ℚ) (c : Cache) : cacheRel mono c c := by
  intro sat_id
  cases h : cacheGet c sat_id with
  | none => exact Or.inl ⟨rfl, rfl⟩
  | some e => exact Or.inr ⟨e, e, rfl, rfl, rfl, rfl, rfl, Or.inl rfl⟩

/-- Storing related entries at the same id preserves the relation. -/
theorem cacheRel_set (mono : ℚ) (c1 c2 : Cache) (sat_id : ℕ) (e1 e2 : CacheEntry)
    (hrel : cacheRel mono c1 c2) (he : entryRel mono e1 e2) :
    cacheRel mono (cacheSet c1 sat_id e1) (cacheSet c2 sat_id e2) := by
  intro other
  by_cases ho : other = sat_id
  · subst ho
    exact Or.inr ⟨e1, e2, cacheGet_cacheSet_self c1 other e1,
      cacheGet_cacheSet_self c2 other e2, he⟩
  · rw [cacheGet_cacheSet_ne _ _ _ _ ho, cacheGet_cacheSet_ne _ _ _ _ ho]
    exact hrel other

/-- The stored backoff deadline always lies strictly after the
monotonic clock, whatever the jitter draw. -/
theorem backoffUntil_gt_mono (streak : ℕ) (mono r : ℚ) : mono < backoffUntil streak mono r := by
  unfold backoffUntil
  have h1 : (1:ℚ) ≤ max 1 (min 3600 (60 * 2 ^ (streak - 1)) +
      min 3600 (60 * 2 ^ (streak - 1)) * (1/10) * (2 * r - 1)) := le_max_left _ _
  linarith

/-- Resolve is insensitive to the random stream except for retry_after,
whose divergent values both remain in the future. -/
theorem resolve_rel (c1 c2 : Cache) (sat_id : ℕ) (lat lon : ℚ) (now_utc : ℤ)
    (fetcher : Fetcher) (mono : ℚ) (rs1 rs2 : List ℚ) (hrel : cacheRel mono c1 c2) :
    (get_pass_with_cache c1 sat_id lat lon now_utc fetcher mono rs1).pass_obj =
      (get_pass_with_cache c2 sat_id lat lon now_utc fetcher mono rs2).pass_obj ∧
    (get_pass_with_cache c1 sat_id lat lon now_utc fetcher mono rs1).fetches =
      (get_pass_with_cache c2 sat_id lat lon now_utc fetcher mono rs2).fetches ∧
    cacheRel mono (get_pass_with_cache c1 sat_id lat lon now_utc fetcher mono rs1).cache
      (get_pass_with_cache c2 sat_id lat lon now_utc fetcher mono rs2).cache := by
  rcases hrel sat_id with ⟨hn1, hn2⟩ | ⟨e1, e2, he1, he2, hrel_e⟩
  · have ha1 : resolveAttemptsFetch c1 sat_id now_utc mono = true := by
      simp [resolveAttemptsFetch, hn1]
    have ha2 : resolveAttemptsFetch c2 sat_id now_utc mono = true := by
      simp [resolveAttemptsFetch, hn2]
    cases hf : fetcher sat_id lat lon with
    | none =>
      rw [resolve_fail c1 sat_id lat lon now_utc fetcher mono rs1 ha1 hf,
        resolve_fail c2 sat_id lat lon now_utc fetcher mono rs2 ha2 hf]
      refine ⟨rfl, rfl, cacheRel_set mono c1 c2 sat_id _ _ hrel
        ⟨?_, ?_, ?_, Or.inr ⟨backoffUntil_gt_mono _ _ _, backoffUntil_gt_mono _ _ _⟩⟩⟩
      · simp [entryPass, hn1, hn2]
      · simp [entrySetTs, hn1, hn2]
      · simp [entryStreak, hn1, hn2]
    | some p =>
      cases hx : extract_set_ts p with
      | none =>
        rw [resolve_success_nosts c1 sat_id lat lon now_utc fetcher mono rs1 p ha1 hf hx,
          resolve_success_nosts c2 sat_id lat lon now_utc fetcher mono rs2 p ha2 hf hx]
        exact ⟨rfl, rfl, cacheRel_set mono c1 c2 sat_id _ _ hrel ⟨rfl, rfl, rfl, Or.inl rfl⟩⟩
      | some sts =>
        rw [resolve_success c1 sat_id lat lon now_utc fetcher mono rs1 p sts ha1 hf hx,
          resolve_success c2 sat_id lat lon now_utc fetcher mono rs2 p sts ha2 hf hx]
        exact ⟨rfl, rfl, cacheRel_set mono c1 c2 sat_id _ _ hrel ⟨rfl, rfl, rfl, Or.inl rfl⟩⟩
  · obtain ⟨hp, hs, hst, hra⟩ := hrel_e
    by_cases hhit : now_utc ≤ e1.set_ts
    · rw [resolve_hit c1 sat_id lat lon now_utc fetcher mono rs1 e1 he1 hhit,
        resolve_hit c2 sat_id lat lon now_utc fetcher mono rs2 e2 he2 (by rw [← hs]; exact hhit)]
      exact ⟨hp, rfl, hrel⟩
    · have hhit2 : ¬now_utc ≤ e2.set_ts := by rw [← hs]; exact hhit
      by_cases hback : mono < e1.retry_after
      · have hback2 : mono < e2.retry_after := by
          rcases hra with h | ⟨_, h⟩
          · rw [← h]; exact hback
          · exact h
        rw [resolve_backoff c1 sat_id lat lon now_utc fetcher mono rs1 e1 he1 hhit hback,
          resolve_backoff c2 sat_id lat lon now_utc fetcher mono rs2 e2 he2 hhit2 hback2]
        exact ⟨rfl, rfl, hrel⟩
      · have hback2 : ¬mono < e2.retry_after := by
          rcases hra with h | ⟨h1, _⟩
          · rw [← h]; exact hback
          · exact absurd h1 hback
        have ha1 : resolveAttemptsFetch c1 sat_id now_utc mono = true := by
          simp [resolveAttemptsFetch, he1, not_le.mp hhit, hback]
        have ha2 : resolveAttemptsFetch c2 sat_id now_utc mono = true := by
          simp [resolveAttemptsFetch, he2, not_le.mp hhit2, hback2]
        cases hf : fetcher sat_id lat lon with
        | none =>
          rw [resolve_fail c1 sat_id lat lon now_utc fetcher mono rs1 ha1 hf,
            resolve_fail c2 sat_id lat lon now_utc fetcher mono rs2 ha2 hf]
          refine ⟨rfl, rfl, cacheRel_set mono c1 c2 sat_id _ _ hrel
            ⟨?_, ?_, ?_, Or.inr ⟨backoffUntil_gt_mono _ _ _, backoffUntil_gt_mono _ _ _⟩⟩⟩
          · simp [entryPass, he1, he2, hp]
          · simp [entrySetTs, he1, he2, hs]
          · simp [entryStreak, he1, he2, hst]
        | some p =>
          cases hx : extract_set_ts p with
          | none =>
            rw [resolve_success_nosts c1 sat_id lat lon now_utc fetcher mono rs1 p ha1 hf hx,
              resolve_success_nosts c2 sat_id lat lon now_utc fetcher mono rs2 p ha2 hf hx]
            exact ⟨rfl, rfl, cacheRel_set mono c1 c2 sat_id _ _ hrel
              ⟨rfl, rfl, rfl, Or.inl rfl⟩⟩
          | some sts =>
            rw [resolve_success c1 sat_id lat lon now_utc fetcher mono rs1 p sts ha1 hf hx,
              resolve_success c2 sat_id lat lon now_utc fetcher mono rs2 p sts ha2 hf hx]
            exact ⟨rfl, rfl, cacheRel_set mono c1 c2 sat_id _ _ hrel
              ⟨rfl, rfl, rfl, Or.inl rfl⟩⟩

/-- One loop body is insensitive to the random stream in its pass,
budget and fetch log, and preserves cache relatedness. -/
theorem visStep_rel (cfg : AppConfig) (now_utc : ℤ) (fetcher : Fetcher) (mono : ℚ)
    (sat_id : ℕ) (c1 c2 : Cache) (budget : ℤ) (rs1 rs2 : List ℚ)
    (hrel : cacheRel mono c1 c2) :
    (visStep cfg now_utc fetcher mono sat_id c1 budget rs1).1 =
      (visStep cfg now_utc fetcher mono sat_id c2 budget rs2).1 ∧
    cacheRel mono (visStep cfg now_utc fetcher mono sat_id c1 budget rs1).2.1
      (visStep cfg now_utc fetcher mono sat_id c2 budget rs2).2.1 ∧
    (visStep cfg now_utc fetcher mono sat_id c1 budget rs1).2.2.1 =
      (visStep cfg now_utc fetcher mono sat_id c2 budget rs2).2.2.1 ∧
    (visStep cfg now_utc fetcher mono sat_id c1 budget rs1).2.2.2.2 =
      (visStep cfg now_utc fetcher mono sat_id c2 budget rs2).2.2.2.2 := by
  rcases hq : hrel sat_id with ⟨hn1, hn2⟩ | ⟨e1, e2, he1, he2, hrel_e⟩
  · simp only [visStep, hn1, hn2]
    by_cases hm : mono < 0
    · rw [if_pos hm, if_pos hm]
      exact ⟨rfl, hrel, rfl, rfl⟩
    · rw [if_neg hm, if_neg hm]
      by_cases hb : 0 < budget
      · rw [if_pos hb, if_pos hb]
        obtain ⟨h1, h2, h3⟩ := resolve_rel c1 c2 sat_id cfg.lat cfg.lon now_utc fetcher mono
          rs1 rs2 hrel
        exact ⟨h1, h3, rfl, rfl⟩
      · rw [if_neg hb, if_neg hb]
        exact ⟨rfl, hrel, rfl, rfl⟩
  · obtain ⟨hp, hs, hst, hra⟩ := hrel_e
    simp only [visStep, he1, he2]
    by_cases hhit : now_utc ≤ e1.set_ts
    · rw [if_pos hhit, if_pos (show now_utc ≤ e2.set_ts by rw [← hs]; exact hhit)]
      exact ⟨hp, hrel, rfl, rfl⟩
    · rw [if_neg hhit, if_neg (show ¬now_utc ≤ e2.set_ts by rw [← hs]; exact hhit)]
      by_cases hback : mono < e1.retry_after
      · have hback2 : mono < e2.retry_after := by
          rcases hra with h | ⟨_, h⟩
          · rw [← h]; exact hback
          · exact h
        rw [if_pos hback, if_pos hback2]
        exact ⟨rfl, hrel, rfl, rfl⟩
      · have hback2 : ¬mono < e2.retry_after := by
          rcases hra with h | ⟨h1, _⟩
          · rw [← h]; exact hback
          · exact absurd h1 hback
        rw [if_neg hback, if_neg hback2]
        by_cases hb : 0 < budget
        · rw [if_pos hb, if_pos hb]
          obtain ⟨h1, h2, h3⟩ := resolve_rel c1 c2 sat_id cfg.lat cfg.lon now_utc fetcher
            mono rs1 rs2 hrel
          exact ⟨h1, h3, rfl, rfl⟩
        · rw [if_neg hb, if_neg hb]
          exact ⟨rfl, hrel, rfl, rfl⟩

/-- The per-satellite loop is insensitive to the random stream in its
results, budget and fetch log, and preserves cache relatedness. -/
theorem visLoop_rel (cfg : AppConfig) (now_utc : ℤ) (fetcher : Fetcher) (mono : ℚ) :
    ∀ (sats : List (ℕ × String)) (c1 c2 : Cache) (budget : ℤ) (rs1 rs2 : List ℚ),
      cacheRel mono c1 c2 →
      (visLoop cfg now_utc fetcher mono sats c1 budget rs1).results =
        (visLoop cfg now_utc fetcher mono sats c2 budget rs2).results ∧
      cacheRel mono (visLoop cfg now_utc fetcher mono sats c1 budget rs1).cache
        (visLoop cfg now_utc fetcher mono sats c2 budget rs2).cache ∧
      (visLoop cfg now_utc fetcher mono sats c1 budget rs1).budget =
        (visLoop cfg now_utc fetcher mono sats c2 budget rs2).budget ∧
      (visLoop cfg now_utc fetcher mono sats c1 budget rs1).fetched =
        (visLoop cfg now_utc fetcher mono sats c2 budget rs2).fetched
  | [], c1, c2, budget, rs1, rs2, hrel => ⟨rfl, hrel, rfl, rfl⟩
  | (sat_id, color) :: rest, c1, c2, budget, rs1, rs2, hrel => by
    obtain ⟨h1, h2, h3, h4⟩ := visStep_rel cfg now_utc fetcher mono sat_id c1 c2 budget rs1
      rs2 hrel
    rw [visLoop_cons, visLoop_cons, ← h1, ← h3, ← h4]
    have ih := visLoop_rel cfg now_utc fetcher mono rest
      (visStep cfg now_utc fetcher mono sat_id c1 budget rs1).2.1
      (visStep cfg now_utc fetcher mono sat_id c2 budget rs2).2.1
      (visStep cfg now_utc fetcher mono sat_id c1 budget rs1).2.2.1
      (visStep cfg now_utc fetcher mono sat_id c1 budget rs1).2.2.2.1
      (visStep cfg now_utc fetcher mono sat_id c2 budget rs2).2.2.2.1 h2
    refine ⟨?_, ih.2.1, ih.2.2.1, ?_⟩
    · show _ ++ _ = _ ++ _
      rw [ih.1]
    · show _ ++ _ = _ ++ _
      rw [ih.2.2.2]

/-- Claim C10: two visible_now runs from identical configuration and
state that differ only in the injected random stream return the same
(id, tag) results, the same fetch log and the same advanced index; the
caches can differ only in stored retry_after values, which then both
lie beyond the monotonic clock.  The jitter influences only the stored
retryAfter, never the returned result. -/
theorem c10_jitter_noninterference (cfg : AppConfig) (st : VisState) (now_utc : ℤ)
    (fetcher : Fetcher) (mono : ℚ) (maxf : Option ℤ) (rs1 rs2 : List ℚ) :
    (visible_now cfg st now_utc fetcher mono maxf rs1).results =
      (visible_now cfg st now_utc fetcher mono maxf rs2).results ∧
    (visible_now cfg st now_utc fetcher mono maxf rs1).state.rr_idx =
      (visible_now cfg st now_utc fetcher mono maxf rs2).state.rr_idx ∧
    (visible_now cfg st now_utc fetcher mono maxf rs1).fetched =
      (visible_now cfg st now_utc fetcher mono maxf rs2).fetched ∧
    cacheRel mono (visible_now cfg st now_utc fetcher mono maxf rs1).state.cache
      (visible_now cfg st now_utc fetcher mono maxf rs2).state.cache := by
  rw [visible_now_def, visible_now_def]
  by_cases hn : cfg.satellites.length = 0
  · rw [if_pos hn, if_pos hn]
    exact ⟨rfl, rfl, rfl, cacheRel_refl mono st.cache⟩
  · rw [if_neg hn, if_neg hn]
    obtain ⟨h1, h2, h3, h4⟩ := visLoop_rel cfg now_utc fetcher mono
      (cycleOrder cfg.satellites st.rr_idx) st.cache st.cache
      (match maxf with
        | some b => b
        | none => (cfg.satellites.length : ℤ)) rs1 rs2 (cacheRel_refl mono st.cache)
    exact ⟨h1, rfl, h4, h2⟩

end Satlight
